import Mathlib

/-!
# task-manager-mvp: the web front end of `src/main.go`

A shallow embedding of the request handlers of `main.go` and of the library
functions they depend on (`strconv.Atoi`, `strconv.Itoa`, Go string slicing,
the string encoding of `json.Marshal`, `http.NewRequest`, the redirect
following of `http.Client`, `http.Error`), followed by theorems about them.

Conventions of the embedding

* A Go `string` is its sequence of bytes (`GoString`); `len`, indexing and
  slicing are by byte, as in Go.
* A Go `int` is a mathematical `Int`; the target is a 64-bit one
  (`intSize = 64`), which is where `strconv.Atoi` looks at the size.
* A handler run is a pure function of the incoming request and of an
  environment `Env` that answers everything the handler cannot decide on its
  own: what the backend replies, whether a template loads, what
  `strconv.ParseFloat` and `json.Unmarshal` return.  It returns the list of
  requests that went out to the backend, redirects followed included, and
  what became of the response (an error response, a redirect, a rendered
  template, nothing, or a run-time panic).
-/

namespace TaskManager

/-! ## Go strings -/

/-- A Go string: an immutable sequence of bytes. -/
abbrev GoString := List UInt8

/-- Bytes of a string literal of the source (its UTF-8 encoding). -/
def str (s : String) : GoString := s.toList.flatMap String.utf8EncodeChar

/-- Go slice expression `s[:hi]`; `none` is the run-time panic
"slice bounds out of range". -/
def sliceTo (s : GoString) (hi : Nat) : Option GoString :=
  if hi ≤ s.length then some (s.take hi) else none

/-- Go slice expression `s[lo:]`; `none` is the run-time panic
"slice bounds out of range". -/
def sliceFrom (s : GoString) (lo : Nat) : Option GoString :=
  if lo ≤ s.length then some (s.drop lo) else none

/-! ## strconv -/

/-- Size in bits of a Go `int` (`strconv.IntSize`) on the 64-bit targets. -/
def intSize : Nat := 64

/-- The two causes `strconv` reports in a `*NumError`. -/
inductive NumError where
  | ErrSyntax
  | ErrRange
  deriving DecidableEq, Repr

/-- Digit loop of `strconv.FormatInt` in base 10: the decimal digits of `u`,
most significant first, put in front of `acc`.  `fuel` bounds the number of
digits. -/
def formatBits : Nat → Nat → GoString → GoString
  | 0, _, acc => acc
  | fuel + 1, u, acc =>
    let acc1 := UInt8.ofNat (48 + u % 10) :: acc
    if u / 10 = 0 then acc1 else formatBits fuel (u / 10) acc1

/-- Go `strconv.Itoa(i)`: the decimal rendering, with a leading `-` for a
negative `i`. -/
def Itoa (i : Int) : GoString :=
  if i < 0 then 45 :: formatBits (i.natAbs + 1) i.natAbs []
  else formatBits (i.toNat + 1) i.toNat []

/-- The function `lower` of `strconv`: `c | ('x' - 'X')`. -/
def lower (c : Nat) : Nat := c ||| 32

/-- Digit loop of `strconv.ParseUint(s, 10, bitSize)`: the value and the
error.  `n` is the `uint64` accumulator, `maxVal = 1<<bitSize - 1`, and the
cutoff is `maxUint64/10 + 1`.  A range error is reported as soon as the
accumulator overflows, before the remaining bytes are looked at. -/
def parseUintLoop (maxVal : Nat) : GoString → Nat → Nat × Option NumError
  | [], n => (n, none)
  | c :: cs, n =>
    let d : Option Nat :=
      if 48 ≤ c.toNat ∧ c.toNat ≤ 57 then some (c.toNat - 48)
      else if 97 ≤ lower c.toNat ∧ lower c.toNat ≤ 122 then some (lower c.toNat - 97 + 10)
      else none
    match d with
    | none => (0, some NumError.ErrSyntax)
    | some d =>
      if d ≥ 10 then (0, some NumError.ErrSyntax)
      else if n ≥ (2 ^ 64 - 1) / 10 + 1 then (maxVal, some NumError.ErrRange)
      else
        let n10 := (n * 10) % 2 ^ 64
        let n1 := (n10 + d) % 2 ^ 64
        if n1 < n10 ∨ n1 > maxVal then (maxVal, some NumError.ErrRange)
        else parseUintLoop maxVal cs n1

/-- Go `strconv.ParseUint(s, 10, bitSize)` for `bitSize` between 1 and 64. -/
def ParseUint (s : GoString) (bitSize : Nat) : Nat × Option NumError :=
  if s = [] then (0, some NumError.ErrSyntax)
  else parseUintLoop (2 ^ bitSize - 1) s 0

/-- Go `strconv.ParseInt(s, 10, 0)`: on a syntax error the value is 0, on a
range error it is the integer of largest magnitude of the right sign. -/
def ParseInt (s : GoString) : Int × Option NumError :=
  match s with
  | [] => (0, some NumError.ErrSyntax)
  | c :: cs =>
    let neg := c = 45
    let s1 := if c = 43 then cs else if c = 45 then cs else s
    match ParseUint s1 intSize with
    | (_, some NumError.ErrSyntax) => (0, some NumError.ErrSyntax)
    | (un, _) =>
      let cutoff := 2 ^ (intSize - 1)
      if ¬ neg ∧ un ≥ cutoff then (((cutoff - 1 : Nat) : Int), some NumError.ErrRange)
      else if neg ∧ un > cutoff then (-(cutoff : Int), some NumError.ErrRange)
      else (if neg then -(un : Int) else (un : Int), none)

/-- Digit loop of the fast path of `strconv.Atoi`; `none` is its syntax
error.  `ch -= '0'` is byte arithmetic, hence the `% 256`. -/
def atoiFastLoop : GoString → Int → Option Int
  | [], n => some n
  | c :: cs, n =>
    let ch := (c.toNat + 256 - 48) % 256
    if ch > 9 then none else atoiFastLoop cs (n * 10 + (ch : Int))

/-- Go `strconv.Atoi(s)`: the value and the error that come back together.
Strings of 1 to 18 bytes take the fast path, in which a leading sign is
stripped and nothing but the sign is a syntax error; the others go through
`ParseInt(s, 10, 0)`, whose value is returned along with its error. -/
def Atoi (s : GoString) : Int × Option NumError :=
  match s with
  | [] => ParseInt s
  | c :: cs =>
    if s.length < 19 then
      let s1 := if c = 45 ∨ c = 43 then cs else s
      if s1.length < 1 then (0, some NumError.ErrSyntax)
      else
        match atoiFastLoop s1 0 with
        | none => (0, some NumError.ErrSyntax)
        | some n => (if c = 45 then -n else n, none)
    else ParseInt s

/-! ## Data model of `main.go` -/

/-- A Go `float64`, kept as its IEEE-754 bit pattern.  The handlers only pass
such values on; the one thing that matters to them is whether
`json.Marshal` accepts the value. -/
structure Float64 where
  bits : Nat
  deriving DecidableEq, Repr

/-- Is the value a NaN or an infinity (exponent field all ones)?
`json.Marshal` rejects exactly these. -/
def Float64.isNaNOrInf (f : Float64) : Bool := (f.bits / 2 ^ 52) % 2048 == 2047

/-- Type `User` of `main.go`. -/
structure User where
  ID : Int
  Name : GoString
  PassportNumber : GoString
  deriving DecidableEq, Repr

/-- Type `Task` of `main.go`. -/
structure Task where
  ID : Int
  UserID : Int
  Name : GoString
  Description : GoString
  Status : GoString
  Rate : Float64
  Deadline : Int
  Earned : Float64
  deriving DecidableEq, Repr

/-- The anonymous struct in the field `Filter` of `TemplateData`. -/
structure Filter where
  UserID : Int
  SortBy : GoString
  deriving DecidableEq, Repr

/-- Type `TemplateData` of `main.go`: the view-model of the dashboard. -/
structure TemplateData where
  Users : List User
  Tasks : List Task
  Filter : Filter
  deriving DecidableEq, Repr

/-- The `map[string]interface{}` values that the handlers hand to
`json.Marshal`, one constructor per key set. -/
inductive Payload where
  | task (userid : Int) (description : GoString) (rate : Float64) (deadline : Int)
  | user (name : GoString) (passportNumber : GoString)
  deriving DecidableEq, Repr

/-! ## encoding/json -/

/-- Size of the well-formed UTF-8 sequence at the head of `s`, and 0 when
there is none: `utf8.DecodeRuneInString` returns that size, or
`(RuneError, 1)` where this function returns 0.  The accepted ranges of the
second byte are those of the table `acceptRanges` of `unicode/utf8`. -/
def runeSize (s : GoString) : Nat :=
  match s with
  | [] => 0
  | s0 :: rest =>
    let continuation := fun (b : UInt8) => 128 ≤ b.toNat ∧ b.toNat ≤ 191
    if s0.toNat < 128 then 1
    else if 194 ≤ s0.toNat ∧ s0.toNat ≤ 223 then
      match rest with
      | s1 :: _ => if continuation s1 then 2 else 0
      | _ => 0
    else if 224 ≤ s0.toNat ∧ s0.toNat ≤ 239 then
      let lo := if s0.toNat = 224 then 160 else 128
      let hi := if s0.toNat = 237 then 159 else 191
      match rest with
      | s1 :: s2 :: _ => if lo ≤ s1.toNat ∧ s1.toNat ≤ hi ∧ continuation s2 then 3 else 0
      | _ => 0
    else if 240 ≤ s0.toNat ∧ s0.toNat ≤ 244 then
      let lo := if s0.toNat = 240 then 144 else 128
      let hi := if s0.toNat = 244 then 143 else 191
      match rest with
      | s1 :: s2 :: s3 :: _ =>
        if lo ≤ s1.toNat ∧ s1.toNat ≤ hi ∧ continuation s2 ∧ continuation s3 then 4 else 0
      | _ => 0
    else 0

/-- Loop of Go `utf8.ValidString`; `fuel` bounds the number of runes. -/
def validLoop : Nat → GoString → Bool
  | 0, s => s == []
  | fuel + 1, s =>
    match s with
    | [] => true
    | _ :: _ => if runeSize s = 0 then false else validLoop fuel (s.drop (runeSize s))

/-- Go `utf8.ValidString(s)`. -/
def ValidString (s : GoString) : Bool := validLoop s.length s

/-- Loop of the string encoder of `encoding/json`, read through the decoder:
a well-formed sequence stands for itself, and every byte that starts none is
written as `\\ufffd`, which stands for U+FFFD (bytes `EF BF BD`).  `fuel`
bounds the number of steps. -/
def jsonStringLoop : Nat → GoString → GoString
  | 0, _ => []
  | fuel + 1, s =>
    match s with
    | [] => []
    | _ :: cs =>
      if runeSize s = 0 then 239 :: 191 :: 189 :: jsonStringLoop fuel cs
      else s.take (runeSize s) ++ jsonStringLoop fuel (s.drop (runeSize s))

/-- The string that the JSON text written by `json.Marshal` for the Go
string `s` stands for, which is what the backend receives. -/
def jsonString (s : GoString) : GoString := jsonStringLoop s.length s

/-- Go `json.Marshal` on the maps of the handlers: the JSON object that the
output stands for, strings as received, and `none` for the error, which
occurs only on a float that is NaN or infinite. -/
def Marshal : Payload → Option Payload
  | Payload.task userid description rate deadline =>
    if rate.isNaNOrInf then none
    else some (Payload.task userid (jsonString description) rate deadline)
  | Payload.user name passportNumber =>
    some (Payload.user (jsonString name) (jsonString passportNumber))

/-! ## net/http, client side -/

/-- A request that goes out to the backend: method, URL (as in `req.URL`,
so with the fragment, which is not transmitted) and JSON body. -/
structure BackendRequest where
  method : GoString
  url : GoString
  body : Option Payload
  deriving DecidableEq, Repr

/-- What one round trip of the transport returns: an error, or a response
with its status code, its `Location` header (empty when absent) and the
result of reading its body (`none` when `ioutil.ReadAll` fails). -/
inductive BackendReply where
  | failed
  | response (statusCode : Nat) (location : GoString) (body : Option GoString)
  deriving DecidableEq, Repr

/-- Everything a handler run depends on besides the incoming request. -/
structure Env where
  /-- the outcome of the round trip of a request that was sent -/
  backend : BackendRequest → BackendReply
  /-- Go `(*URL).Parse`: a `Location` header resolved against the URL of the
  request, `none` when it does not parse -/
  resolveLocation : GoString → GoString → Option GoString
  /-- result of `json.Unmarshal` into `[]User` (`none`: error) -/
  unmarshalUsers : GoString → Option (List User)
  /-- result of `json.Unmarshal` into `[]Task` (`none`: error) -/
  unmarshalTasks : GoString → Option (List Task)
  /-- text of the error of `template.ParseFiles(name)`, `none` on success -/
  parseFilesError : GoString → Option GoString
  /-- text of the error of `t.Execute(w, data)`, `none` on success (an
  execution that fails is taken to fail before it writes anything) -/
  executeError : TemplateData → Option GoString
  /-- value returned by `strconv.ParseFloat(s, 64)` -/
  ParseFloat : GoString → Float64

/-- The check `stringContainsCTLByte` of `net/url`. -/
def containsCTLByte (s : GoString) : Bool := s.any fun b => b < 32 || b == 127

/-- The function `ishex` of `net/url`. -/
def ishex (b : UInt8) : Bool :=
  (48 ≤ b.toNat && b.toNat ≤ 57) || (97 ≤ b.toNat && b.toNat ≤ 102) ||
    (65 ≤ b.toNat && b.toNat ≤ 70)

/-- Does `unescape` of `net/url` fail on the fragment: is there a `%` that
two hexadecimal digits do not follow? -/
def badEscape : GoString → Bool
  | [] => false
  | c :: rest =>
    if c = 37 then
      match rest with
      | a :: b :: rest2 => if ishex a && ishex b then badEscape rest2 else true
      | _ => true
    else badEscape rest

/-- Go `http.NewRequest(method, url, body)`, which fails when `url.Parse`
does.  `url.Parse` cuts the URL at the first `#`, rejects a control byte in
the part before it and a bad percent-escape in the fragment after it; the
empty URL parses.  Its other errors concern the scheme, the authority and
the path, which in every URL that `main.go` builds are the constant
`http://localhost:8080/api/...` followed by at most a decimal number. -/
def NewRequest (method url : GoString) (body : Option Payload) : Option BackendRequest :=
  if containsCTLByte (url.takeWhile fun b => b != 35) ||
      badEscape ((url.dropWhile fun b => b != 35).drop 1) then none
  else some { method := method, url := url, body := body }

/-- The function `redirectBehavior` of `net/http`: for a reply that is to be
followed, the method of the next request and whether the body is sent
again.  (`GetBody` is set on every request with a body here, their bodies
being `*bytes.Buffer`.) -/
def redirectBehavior (reqMethod : GoString) (statusCode : Nat) : Option (GoString × Bool) :=
  if statusCode = 301 ∨ statusCode = 302 ∨ statusCode = 303 then
    some (if reqMethod ≠ str "GET" ∧ reqMethod ≠ str "HEAD" then str "GET" else reqMethod, false)
  else if statusCode = 307 ∨ statusCode = 308 then some (reqMethod, true)
  else none

/-- Loop of Go `(*Client).do` with the default redirect policy; `budget` is
the number of requests that may still be sent (10 at the start).  Each
request passes the scheme check of the transport ("unsupported protocol
scheme" unless `http` or `https`) and goes out; a 301, 302, 303, 307 or 308
reply with a `Location` header is followed, any other reply is returned, a
reply of these statuses without `Location` included.  The first component
lists the requests sent, in order. -/
def doLoop (env : Env) (body : Option Payload) :
    Nat → BackendRequest → List BackendRequest × BackendReply
  | 0, _ => ([], BackendReply.failed)
  | budget + 1, req =>
    if (str "http://").isPrefixOf req.url || (str "https://").isPrefixOf req.url then
      match env.backend req with
      | BackendReply.failed => ([req], BackendReply.failed)
      | BackendReply.response statusCode location respBody =>
        match redirectBehavior req.method statusCode with
        | none => ([req], BackendReply.response statusCode location respBody)
        | some (redirectMethod, includeBody) =>
          if location = [] then ([req], BackendReply.response statusCode location respBody)
          else
            match env.resolveLocation req.url location with
            | none => ([req], BackendReply.failed)
            | some u =>
              let next : BackendRequest :=
                { method := redirectMethod, url := u,
                  body := if includeBody then body else none }
              (req :: (doLoop env body budget next).1, (doLoop env body budget next).2)
    else ([], BackendReply.failed)

/-- Go `client.Do(req)` on a default `http.Client`: the last response, or
an error (a failed round trip, a `Location` that does not parse, or
"stopped after 10 redirects"). -/
def Do (env : Env) (req : BackendRequest) : List BackendRequest × BackendReply :=
  doLoop env req.body 10 req

/-- Go `http.Get(url)`. -/
def Get (env : Env) (url : GoString) : List BackendRequest × BackendReply :=
  match NewRequest (str "GET") url none with
  | none => ([], BackendReply.failed)
  | some req => Do env req

/-- Go `http.Post(url, "application/json", body)`, the body being the output
of `json.Marshal`. -/
def Post (env : Env) (url : GoString) (body : Payload) : List BackendRequest × BackendReply :=
  match NewRequest (str "POST") url (some body) with
  | none => ([], BackendReply.failed)
  | some req => Do env req

/-! ## net/http, server side -/

/-- The incoming request, as far as the handlers look at it. -/
structure Request where
  /-- Go `r.Method` -/
  method : GoString
  /-- Go `r.URL.Query().Get(key)` -/
  query : GoString → GoString
  /-- Go `r.FormValue(key)` -/
  formValue : GoString → GoString
  /-- does `r.ParseForm()` return an error? -/
  parseFormFails : Bool

/-- What becomes of the response of a handler run. -/
inductive Outcome where
  /-- the handler returns without writing anything -/
  | nothing
  /-- the response that `http.Error(w, msg, code)` writes for a final status:
  status `code`, with the text `msg` as body where the status allows one -/
  | error (msg : GoString) (code : Nat)
  /-- an interim response with the informational status `code`, then the
  text `msg` under the implicit status 200 -/
  | interim (msg : GoString) (code : Nat)
  /-- the call `http.Redirect(w, r, url, code)` -/
  | redirect (url : GoString) (code : Nat)
  /-- the template was executed on the view-model without error -/
  | rendered (data : TemplateData)
  /-- a run-time panic: no response is written -/
  | panic
  deriving DecidableEq, Repr

/-- Go `http.Error(w, msg, code)`: `WriteHeader` panics on a code below 100
or above 999 ("invalid WriteHeader code"); an informational code other than
101 only sends an interim response, after which the text goes out under
status 200; any other code is the status of the response. -/
def httpError (msg : GoString) (code : Nat) : Outcome :=
  if code < 100 ∨ 999 < code then Outcome.panic
  else if code ≤ 199 ∧ code ≠ 101 then Outcome.interim msg code
  else Outcome.error msg code

/-- A handler run: the requests sent to the backend, in order, and the
outcome. -/
structure Result where
  calls : List BackendRequest
  outcome : Outcome
  deriving DecidableEq, Repr

/-! ## The API client functions of `main.go` -/

/-- Function `getUsers` of `main.go`. -/
def getUsers (env : Env) : List BackendRequest × Option (List User) :=
  match Get env (str "http://localhost:8080/api/users?offset=0&limit=100") with
  | (calls, BackendReply.failed) => (calls, none)
  | (calls, BackendReply.response _ _ none) => (calls, none)
  | (calls, BackendReply.response _ _ (some body)) => (calls, env.unmarshalUsers body)

/-- The local variable `url` of `getTasks`, lines 63-68. -/
def getTasksURL (userID : Int) (sortBy : GoString) : GoString :=
  if userID > 0 then
    str "http://localhost:8080/api/tasks?user_id=" ++ Itoa userID ++ str "&sort_by=" ++ sortBy
  else
    str "http://localhost:8080/api/tasks?sort_by=" ++ sortBy

/-- Function `getTasks` of `main.go`. -/
def getTasks (env : Env) (userID : Int) (sortBy : GoString) :
    List BackendRequest × Option (List Task) :=
  match Get env (getTasksURL userID sortBy) with
  | (calls, BackendReply.failed) => (calls, none)
  | (calls, BackendReply.response _ _ none) => (calls, none)
  | (calls, BackendReply.response _ _ (some body)) => (calls, env.unmarshalTasks body)

/-! ## The handlers of `main.go`

Every handler but the dashboard is registered with `.Methods("POST")` and
tests `r.Method == "POST"` itself, so a request that reaches it has that
method; the theorems on these handlers take `r.method = str "POST"` as a
hypothesis. -/

/-- Handler of `GET /` from its third statement on (lines 96-129), as a
function of the two locals `userID` and `sortBy`. -/
def dashboardBody (env : Env) (userID : Int) (sortBy : GoString) : Result :=
  match getUsers env with
  | (c1, none) => ⟨c1, httpError (str "Failed to load users") 500⟩
  | (c1, some users) =>
    match getTasks env userID sortBy with
    | (c2, none) => ⟨c1 ++ c2, httpError (str "Failed to load tasks") 500⟩
    | (c2, some tasks) =>
      match env.parseFilesError (str "templates/index.html") with
      | some e => ⟨c1 ++ c2, httpError (str "Failed to load template: " ++ e) 500⟩
      | none =>
        let data : TemplateData :=
          { Users := users, Tasks := tasks, Filter := { UserID := userID, SortBy := sortBy } }
        match env.executeError data with
        | some e => ⟨c1 ++ c2, httpError (str "Failed to execute template: " ++ e) 500⟩
        | none => ⟨c1 ++ c2, Outcome.rendered data⟩

/-- Handler of `GET /` (lines 92-130): the error of `Atoi` is dropped and
its value is used. -/
def dashboardHandler (env : Env) (r : Request) : Result :=
  let userID := (Atoi (r.query (str "user_id"))).1
  let sortBy := r.query (str "sort_by")
  dashboardBody env userID sortBy

/-- Handler of `/task/create` (lines 132-174). -/
def taskCreateHandler (env : Env) (r : Request) : Result :=
  if r.method = str "POST" then
    if r.parseFormFails then ⟨[], httpError (str "Failed to parse form") 500⟩
    else
      let userID := (Atoi (r.formValue (str "user_id"))).1
      let description := r.formValue (str "description")
      let rate := env.ParseFloat (r.formValue (str "rate"))
      let deadline := (Atoi (r.formValue (str "deadline"))).1
      let task := Payload.task userID description rate deadline
      match Marshal task with
      | none => ⟨[], httpError (str "Failed to marshal task") 500⟩
      | some body =>
        match Post env (str "http://localhost:8080/api/tasks") body with
        | (calls, BackendReply.failed) =>
          ⟨calls, httpError (str "Failed to create task") 500⟩
        | (calls, BackendReply.response statusCode _ _) =>
          if statusCode ≠ 201 then ⟨calls, httpError (str "Failed to create task") statusCode⟩
          else ⟨calls, Outcome.redirect (str "/") 303⟩
  else ⟨[], Outcome.nothing⟩

/-- Handler of `/task/delete` (lines 176-195). -/
def taskDeleteHandler (env : Env) (r : Request) : Result :=
  if r.method = str "POST" then
    let taskID := (Atoi (r.formValue (str "task_id"))).1
    match NewRequest (str "DELETE") (str "http://localhost:8080/api/tasks/" ++ Itoa taskID) none with
    | none => ⟨[], httpError (str "Failed to delete task") 500⟩
    | some req =>
      match Do env req with
      | (calls, BackendReply.failed) => ⟨calls, httpError (str "Failed to delete task") 500⟩
      | (calls, BackendReply.response _ _ _) => ⟨calls, Outcome.redirect (str "/") 303⟩
  else ⟨[], Outcome.nothing⟩

/-- The local variable `url` of the `/task/update` handler, lines 202-207. -/
def taskUpdateURL (taskID : Int) (action : GoString) : GoString :=
  if action = str "start" then str "http://localhost:8080/api/tasks/" ++ Itoa taskID ++ str "/start"
  else if action = str "stop" then str "http://localhost:8080/api/tasks/" ++ Itoa taskID ++ str "/stop"
  else []

/-- Handler of `/task/update` (lines 197-225). -/
def taskUpdateHandler (env : Env) (r : Request) : Result :=
  if r.method = str "POST" then
    let taskID := (Atoi (r.formValue (str "task_id"))).1
    let action := r.formValue (str "action")
    match NewRequest (str "POST") (taskUpdateURL taskID action) none with
    | none => ⟨[], httpError (str "Failed to update task") 500⟩
    | some req =>
      match Do env req with
      | (calls, BackendReply.failed) => ⟨calls, httpError (str "Failed to update task") 500⟩
      | (calls, BackendReply.response _ _ _) => ⟨calls, Outcome.redirect (str "/") 303⟩
  else ⟨[], Outcome.nothing⟩

/-- Handler of `/user/create` (lines 250-277). -/
def userCreateHandler (env : Env) (r : Request) : Result :=
  if r.method = str "POST" then
    let name := r.formValue (str "name")
    let passport := r.formValue (str "passport")
    match sliceTo passport 4 with
    | none => ⟨[], Outcome.panic⟩
    | some passportSeries =>
      match sliceFrom passport 5 with
      | none => ⟨[], Outcome.panic⟩
      | some passportNumber =>
        let user := Payload.user name (passportSeries ++ str " " ++ passportNumber)
        match Marshal user with
        | none => ⟨[], httpError (str "Failed to marshal user") 500⟩
        | some body =>
          match Post env (str "http://localhost:8080/api/users") body with
          | (calls, BackendReply.failed) =>
            ⟨calls, httpError (str "Failed to create user") 500⟩
          | (calls, BackendReply.response _ _ _) => ⟨calls, Outcome.redirect (str "/users") 303⟩
  else ⟨[], Outcome.nothing⟩

/-- Handler of `/user/update` (lines 279-340). -/
def userUpdateHandler (env : Env) (r : Request) : Result :=
  if r.method = str "POST" then
    if r.parseFormFails then ⟨[], httpError (str "Failed to parse form") 500⟩
    else
      match Atoi (r.formValue (str "user_id")) with
      | (_, some _) => ⟨[], httpError (str "Invalid user ID") 400⟩
      | (userID, none) =>
        let name := r.formValue (str "user_name")
        let passport := r.formValue (str "new_passport")
        if passport.length < 6 then ⟨[], httpError (str "Invalid passport format") 400⟩
        else
          match sliceTo passport 4 with
          | none => ⟨[], Outcome.panic⟩
          | some passportSeries =>
            match sliceFrom passport 5 with
            | none => ⟨[], Outcome.panic⟩
            | some passportNumber =>
              let user := Payload.user name (passportSeries ++ str " " ++ passportNumber)
              match Marshal user with
              | none => ⟨[], httpError (str "Failed to marshal user") 500⟩
              | some body =>
                match NewRequest (str "PUT")
                    (str "http://localhost:8080/api/users/" ++ Itoa userID) (some body) with
                | none => ⟨[], httpError (str "Failed to create request") 500⟩
                | some req =>
                  match Do env req with
                  | (calls, BackendReply.failed) =>
                    ⟨calls, httpError (str "Failed to update user") 500⟩
                  | (calls, BackendReply.response statusCode _ _) =>
                    if statusCode ≠ 200 then
                      ⟨calls, httpError (str "Failed to update user") statusCode⟩
                    else ⟨calls, Outcome.redirect (str "/users") 303⟩
  else ⟨[], Outcome.nothing⟩

/-! ## Query parameters of a URL text -/

/-- Split at every occurrence of the byte `sep` (Go `strings.Split` with a
one-byte separator): the pieces, in order. -/
def splitOn (sep : UInt8) : GoString → List GoString
  | [] => [[]]
  | c :: cs =>
    if c = sep then [] :: splitOn sep cs
    else
      match splitOn sep cs with
      | [] => [[c]]
      | seg :: segs => (c :: seg) :: segs

/-- The raw query of a URL text: what stands between the first `?` and the
first `#` (the fragment is cut off first, as `url.Parse` does). -/
def rawQuery (url : GoString) : GoString :=
  ((url.takeWhile fun b => b != 35).dropWhile fun b => b != 63).drop 1

/-- The query parameters of a URL text, in order: the raw query is split at
each `&`, empty pieces are skipped, and each piece is cut at its first `=`
into a key and a value (`url.ParseQuery`, without the percent-decoding). -/
def queryParams (url : GoString) : List (GoString × GoString) :=
  ((splitOn 38 (rawQuery url)).filter fun seg => seg != []).map fun seg =>
    (seg.takeWhile fun b => b != 61, (seg.dropWhile fun b => b != 61).drop 1)

/-- The values of the query parameters named `key`, in order of appearance.
The URL contains such a parameter when the list is not empty. -/
def queryValues (url key : GoString) : List GoString :=
  ((queryParams url).filter fun kv => kv.1 == key).map fun kv => kv.2

/-! ## Notions used in the statements -/

/-- Value of a string of decimal digits, most significant first. -/
def decimalValue (ds : GoString) : Nat := ds.foldl (fun acc b => acc * 10 + (b.toNat - 48)) 0

/-- Relation between a passport `p` and a `passportNumber` value `v`: same
length, same bytes except possibly at index 4, a space at index 4, equal to
`p` exactly when byte 4 of `p` is a space, and a fixed point of splitting and
recomposing. -/
def NormalisedPassport (p v : GoString) : Prop :=
  v.length = p.length ∧ (∀ i, i ≠ 4 → v[i]? = p[i]?) ∧ v[4]? = some 32 ∧
    (v = p ↔ p[4]? = some 32) ∧
    ∃ series number, sliceTo v 4 = some series ∧ sliceFrom v 5 = some number ∧
      series ++ str " " ++ number = v

/-! ## Sample inputs -/

/-- An environment around a given backend: an absolute `Location` resolves
to itself, the body `[]` decodes to the empty list and nothing else decodes,
the templates load and execute, and `ParseFloat` returns `+0`. -/
def sampleEnv (backend : BackendRequest → BackendReply) : Env where
  backend := backend
  resolveLocation := fun _ location => some location
  unmarshalUsers := fun body => if body = str "[]" then some [] else none
  unmarshalTasks := fun body => if body = str "[]" then some [] else none
  parseFilesError := fun _ => none
  executeError := fun _ => none
  ParseFloat := fun _ => ⟨0⟩

/-- A backend that answers every request with the given status code, no
`Location` header and the body `[]`. -/
def answering (statusCode : Nat) : BackendRequest → BackendReply :=
  fun _ => BackendReply.response statusCode [] (some (str "[]"))

/-- A backend that answers every `GET` with the given status code and
redirects every other request with a 302 to the given location. -/
def redirecting (location : GoString) (statusCode : Nat) : BackendRequest → BackendReply :=
  fun req =>
    if req.method = str "GET" then BackendReply.response statusCode [] (some (str "[]"))
    else BackendReply.response 302 location (some [])

/-- A backend that redirects every request with a 302 to the given
location. -/
def looping (location : GoString) : BackendRequest → BackendReply :=
  fun _ => BackendReply.response 302 location (some [])

/-- A `POST` request with the listed form fields; the other fields are
empty, as `r.FormValue` returns for a missing key. -/
def formRequest (fields : List (GoString × GoString)) (parseFormFails : Bool) : Request where
  method := str "POST"
  query := fun _ => []
  formValue := fun key => (fields.lookup key).getD []
  parseFormFails := parseFormFails

/-- A `GET` request with the listed query parameters. -/
def queryRequest (params : List (GoString × GoString)) : Request where
  method := str "GET"
  query := fun key => (params.lookup key).getD []
  formValue := fun key => (params.lookup key).getD []
  parseFormFails := false

/-! ## Lemmas on the library models -/

theorem formatBits_bytes (fuel u : Nat) (acc : GoString) (b : UInt8)
    (hb : b ∈ formatBits fuel u acc) : b ∈ acc ∨ (48 ≤ b.toNat ∧ b.toNat ≤ 57) := by
  induction fuel generalizing u acc with
  | zero => exact Or.inl (by simpa [formatBits] using hb)
  | succ fuel ih =>
    have hd : 48 ≤ (UInt8.ofNat (48 + u % 10)).toNat ∧ (UInt8.ofNat (48 + u % 10)).toNat ≤ 57 := by
      have h10 : u % 10 < 10 := Nat.mod_lt _ (by decide)
      have hval : (UInt8.ofNat (48 + u % 10)).toNat = (48 + u % 10) % 256 := rfl
      rw [hval]
      omega
    have hcons : ∀ c : UInt8, c ∈ UInt8.ofNat (48 + u % 10) :: acc →
        c ∈ acc ∨ (48 ≤ c.toNat ∧ c.toNat ≤ 57) := by
      intro c hc
      rcases List.mem_cons.mp hc with h | h
      · exact Or.inr (h ▸ hd)
      · exact Or.inl h
    simp only [formatBits] at hb
    split at hb
    · exact hcons b hb
    · rcases ih _ _ hb with h | h
      · exact hcons b h
      · exact Or.inr h

/-- Every byte of `Itoa i` is `-` or a decimal digit. -/
theorem Itoa_bytes (i : Int) (b : UInt8) (hb : b ∈ Itoa i) :
    b = 45 ∨ (48 ≤ b.toNat ∧ b.toNat ≤ 57) := by
  unfold Itoa at hb
  split at hb
  · rcases List.mem_cons.mp hb with h | h
    · exact Or.inl h
    · rcases formatBits_bytes _ _ _ _ h with h1 | h1
      · simp at h1
      · exact Or.inr h1
  · rcases formatBits_bytes _ _ _ _ hb with h1 | h1
    · simp at h1
    · exact Or.inr h1

/-- For a non-negative `i`, every byte of `Itoa i` is a decimal digit. -/
theorem Itoa_digits (i : Int) (hi : 0 ≤ i) (b : UInt8) (hb : b ∈ Itoa i) :
    48 ≤ b.toNat ∧ b.toNat ≤ 57 := by
  unfold Itoa at hb
  rw [if_neg (by omega)] at hb
  rcases formatBits_bytes _ _ _ _ hb with h1 | h1
  · simp at h1
  · exact h1

theorem containsCTLByte_append (a b : GoString) :
    containsCTLByte (a ++ b) = (containsCTLByte a || containsCTLByte b) := by
  simp [containsCTLByte]

theorem containsCTLByte_Itoa (i : Int) : containsCTLByte (Itoa i) = false := by
  unfold containsCTLByte
  rw [List.any_eq_false]
  intro b hb
  rcases Itoa_bytes i b hb with h | h
  · subst h; decide
  · have h1 : ¬ b < 32 := by
      intro hlt
      have hlt1 : b.toNat < (32 : UInt8).toNat := hlt
      have h32 : (32 : UInt8).toNat = 32 := rfl
      omega
    have h2 : b ≠ 127 := by
      intro h3
      rw [h3] at h
      have : (127 : UInt8).toNat = 127 := rfl
      omega
    simp [h1, h2]

/-! ## Lemmas on the HTTP client and on `http.Error` -/

@[simp] theorem httpError_500 (msg : GoString) : httpError msg 500 = Outcome.error msg 500 := rfl

@[simp] theorem httpError_400 (msg : GoString) : httpError msg 400 = Outcome.error msg 400 := rfl

/-- On the status 101 and on the statuses 200 to 999 `http.Error` answers
with that status. -/
theorem httpError_status (msg : GoString) (code : Nat) (h1 : code = 101 ∨ 200 ≤ code)
    (h2 : code ≤ 999) : httpError msg code = Outcome.error msg code := by
  unfold httpError
  rw [if_neg (by omega), if_neg (by omega)]

/-- On a status below 100 `http.Error` panics. -/
theorem httpError_low (msg : GoString) (code : Nat) (h : code < 100) :
    httpError msg code = Outcome.panic := by
  unfold httpError
  rw [if_pos (Or.inl h)]

theorem httpError_ne_redirect (msg : GoString) (code : Nat) (url : GoString) (c : Nat) :
    httpError msg code ≠ Outcome.redirect url c := by
  unfold httpError
  split
  · simp
  · split <;> simp

/-- A URL without control byte and without `#` parses. -/
theorem NewRequest_clean (method url : GoString) (body : Option Payload)
    (hctl : containsCTLByte url = false) (hfrag : ∀ b ∈ url, b ≠ 35) :
    NewRequest method url body = some { method := method, url := url, body := body } := by
  have htake : (url.takeWhile fun b => b != 35) = url := by
    rw [List.takeWhile_eq_self_iff]
    intro b hb
    simpa using hfrag b hb
  have hdrop : (url.dropWhile fun b => b != 35) = [] := by
    rw [List.dropWhile_eq_nil_iff]
    intro b hb
    simpa using hfrag b hb
  unfold NewRequest
  rw [htake, hdrop, hctl]
  rfl

theorem Itoa_no_fragment (i : Int) : ∀ b ∈ Itoa i, b ≠ 35 := by
  intro b hb h
  subst h
  rcases Itoa_bytes i 35 hb with h1 | h1
  · revert h1; decide
  · have h35 : (35 : UInt8).toNat = 35 := rfl
    omega

/-- The URLs `prefix ++ Itoa i ++ suffix` with clean constant parts parse. -/
theorem NewRequest_api (method pre suf : GoString) (i : Int) (body : Option Payload)
    (hpre : containsCTLByte pre = false ∧ ∀ b ∈ pre, b ≠ 35)
    (hsuf : containsCTLByte suf = false ∧ ∀ b ∈ suf, b ≠ 35) :
    NewRequest method (pre ++ Itoa i ++ suf) body =
      some { method := method, url := pre ++ Itoa i ++ suf, body := body } := by
  apply NewRequest_clean
  · rw [containsCTLByte_append, containsCTLByte_append, containsCTLByte_Itoa, hpre.1, hsuf.1]
    rfl
  · intro b hb
    rcases List.mem_append.mp hb with h | h
    · rcases List.mem_append.mp h with h1 | h1
      · exact hpre.2 b h1
      · exact Itoa_no_fragment i b h1
    · exact hsuf.2 b h

theorem redirectBehavior_none (reqMethod : GoString) (statusCode : Nat)
    (h : statusCode ≠ 301 ∧ statusCode ≠ 302 ∧ statusCode ≠ 303 ∧ statusCode ≠ 307 ∧
      statusCode ≠ 308) : redirectBehavior reqMethod statusCode = none := by
  unfold redirectBehavior
  rw [if_neg (by omega), if_neg (by omega)]

theorem isPrefixOf_http (url : GoString) (h : str "http://" <+: url) :
    ((str "http://").isPrefixOf url || (str "https://").isPrefixOf url) = true := by
  simp [List.isPrefixOf_iff_prefix, h]

/-- The first request that `Do` sends is the one it is given. -/
theorem Do_head (env : Env) (req : BackendRequest) (h : str "http://" <+: req.url) :
    (Do env req).1.head? = some req := by
  unfold Do doLoop
  rw [if_pos (isPrefixOf_http _ h)]
  cases env.backend req with
  | failed => rfl
  | response statusCode location respBody =>
    simp only
    cases redirectBehavior req.method statusCode with
    | none => rfl
    | some mb =>
      rcases mb with ⟨m, b⟩
      simp only
      split
      · rfl
      · cases env.resolveLocation req.url location <;> rfl

/-- A reply that is not a 301, 302, 303, 307 or 308 is what `Do` returns. -/
theorem Do_direct (env : Env) (req : BackendRequest) (statusCode : Nat) (location : GoString)
    (respBody : Option GoString) (h : str "http://" <+: req.url)
    (hreply : env.backend req = BackendReply.response statusCode location respBody)
    (hs : statusCode ≠ 301 ∧ statusCode ≠ 302 ∧ statusCode ≠ 303 ∧ statusCode ≠ 307 ∧
      statusCode ≠ 308) :
    Do env req = ([req], BackendReply.response statusCode location respBody) := by
  unfold Do doLoop
  rw [if_pos (isPrefixOf_http _ h), hreply]
  simp only [redirectBehavior_none _ _ hs]

/-- A round trip that fails is the only one, and `Do` fails. -/
theorem Do_failed (env : Env) (req : BackendRequest) (h : str "http://" <+: req.url)
    (hreply : env.backend req = BackendReply.failed) :
    Do env req = ([req], BackendReply.failed) := by
  unfold Do doLoop
  rw [if_pos (isPrefixOf_http _ h), hreply]

theorem literal_http (lit rest : GoString) (h : str "http://" <+: lit) :
    str "http://" <+: lit ++ rest :=
  List.IsPrefix.trans h (List.prefix_append _ _)

/-! ## Lemmas on the JSON string encoding -/

theorem jsonStringLoop_valid (fuel : Nat) (s : GoString) (hlen : s.length ≤ fuel)
    (h : validLoop fuel s = true) : jsonStringLoop fuel s = s := by
  induction fuel generalizing s with
  | zero =>
    have : s = [] := List.length_eq_zero.mp (by omega)
    subst this
    rfl
  | succ fuel ih =>
    cases s with
    | nil => rfl
    | cons c cs =>
      simp only [validLoop] at h
      simp only [jsonStringLoop]
      by_cases h0 : runeSize (c :: cs) = 0
      · simp [h0] at h
      · simp only [h0, if_false] at h ⊢
        have hdrop : ((c :: cs).drop (runeSize (c :: cs))).length ≤ fuel := by
          rw [List.length_drop]
          simp only [List.length_cons] at hlen ⊢
          omega
        rw [ih _ hdrop h, List.take_append_drop]

/-- The encoder loop does not depend on its fuel once there is one unit per
byte: `jsonString` never runs out of it. -/
theorem jsonStringLoop_fuel (fuel1 fuel2 : Nat) (s : GoString) (h1 : s.length ≤ fuel1)
    (h2 : s.length ≤ fuel2) : jsonStringLoop fuel1 s = jsonStringLoop fuel2 s := by
  induction fuel1 generalizing fuel2 s with
  | zero =>
    have : s = [] := List.length_eq_zero.mp (by omega)
    subst this
    cases fuel2 <;> rfl
  | succ fuel1 ih =>
    cases s with
    | nil => cases fuel2 <;> rfl
    | cons c cs =>
      cases fuel2 with
      | zero => simp at h2
      | succ fuel2 =>
        simp only [List.length_cons] at h1 h2
        simp only [jsonStringLoop]
        by_cases h0 : runeSize (c :: cs) = 0
        · simp only [h0, if_true]
          rw [ih fuel2 cs (by omega) (by omega)]
        · simp only [h0, if_false]
          have hdrop : ((c :: cs).drop (runeSize (c :: cs))).length ≤ cs.length := by
            rw [List.length_drop]
            simp only [List.length_cons]
            omega
          rw [ih fuel2 _ (by omega) (by omega)]

/-- A valid UTF-8 string reaches the backend unchanged. -/
theorem jsonString_valid (s : GoString) (h : ValidString s = true) : jsonString s = s :=
  jsonStringLoop_valid s.length s (Nat.le_refl _) h

/-- A string of ASCII bytes is valid UTF-8. -/
theorem ValidString_ascii (s : GoString) (h : ∀ b ∈ s, b.toNat < 128) :
    ValidString s = true := by
  unfold ValidString
  induction s with
  | nil => rfl
  | cons c cs ih =>
    have hc : c.toNat < 128 := h c (List.mem_cons_self _ _)
    have hsize : runeSize (c :: cs) = 1 := by
      simp [runeSize, hc]
    simp only [List.length_cons, validLoop, hsize]
    exact ih fun b hb => h b (List.mem_cons_of_mem _ hb)

/-- The recomposed passport of an ASCII passport is ASCII. -/
theorem compose_ascii (p : GoString) (h : ∀ b ∈ p, b.toNat < 128) :
    ∀ b ∈ p.take 4 ++ str " " ++ p.drop 5, b.toNat < 128 := by
  intro b hb
  rcases List.mem_append.mp hb with h1 | h1
  · rcases List.mem_append.mp h1 with h2 | h2
    · exact h b (List.mem_of_mem_take h2)
    · have hsp : ∀ x ∈ str " ", x.toNat < 128 := by decide
      exact hsp b h2
  · exact h b (List.mem_of_mem_drop h1)

/-! ## Lemmas on the passport slices -/

theorem str_space : str " " = [32] := by decide

/-- Composing the two slices around a space overwrites byte 4 with a space. -/
theorem compose_eq_set (p : GoString) (hp : 5 ≤ p.length) :
    p.take 4 ++ str " " ++ p.drop 5 = p.set 4 32 := by
  rw [List.set_eq_take_append_cons_drop, if_pos (by omega), str_space]
  simp

theorem take_four_compose (p : GoString) (hp : 5 ≤ p.length) (t : GoString) :
    (p.take 4 ++ str " " ++ t).take 4 = p.take 4 := by
  rw [List.append_assoc]
  exact List.take_left' (by simp; omega)

theorem drop_five_compose (p : GoString) (hp : 5 ≤ p.length) (t : GoString) :
    (p.take 4 ++ str " " ++ t).drop 5 = t := by
  exact List.drop_left' (by simp [str_space]; omega)

theorem take_set_four (p : GoString) (b : UInt8) : (p.set 4 b).take 4 = p.take 4 := by
  apply List.ext_getElem?
  intro i
  simp only [List.getElem?_take, List.getElem?_set]
  by_cases h : i < 4
  · simp [h]
    intro h4; omega
  · simp [h]

theorem drop_set_five (p : GoString) (b : UInt8) : (p.set 4 b).drop 5 = p.drop 5 := by
  apply List.ext_getElem?
  intro i
  simp only [List.getElem?_drop, List.getElem?_set]
  rw [if_neg (by omega)]

theorem compose_normalised (p : GoString) (hp : 5 ≤ p.length) :
    NormalisedPassport p (p.take 4 ++ str " " ++ p.drop 5) := by
  have hset := compose_eq_set p hp
  have hlen : (p.take 4 ++ str " " ++ p.drop 5).length = p.length := by
    rw [hset, List.length_set]
  have hother : ∀ i, i ≠ 4 → (p.take 4 ++ str " " ++ p.drop 5)[i]? = p[i]? := by
    intro i hi
    rw [hset, List.getElem?_set, if_neg (by omega)]
  have hfour : (p.take 4 ++ str " " ++ p.drop 5)[4]? = some 32 := by
    rw [hset, List.getElem?_set, if_pos rfl, if_pos (by omega)]
  refine ⟨hlen, hother, hfour, ?_, p.take 4, p.drop 5, ?_, ?_, ?_⟩
  · constructor
    · intro h
      rw [← h]
      exact hfour
    · intro h
      apply List.ext_getElem?
      intro i
      by_cases hi : i = 4
      · rw [hi, hfour, h]
      · exact hother i hi
  · unfold sliceTo
    rw [if_pos (by omega), take_four_compose p hp]
  · unfold sliceFrom
    rw [if_pos (by omega), drop_five_compose p hp]
  · rfl

/-! ## Lemmas on the handler runs -/

theorem users_url_clean :
    containsCTLByte (str "http://localhost:8080/api/users") = false ∧
      ∀ b ∈ str "http://localhost:8080/api/users", b ≠ 35 := by decide

theorem tasks_url_clean :
    containsCTLByte (str "http://localhost:8080/api/tasks") = false ∧
      ∀ b ∈ str "http://localhost:8080/api/tasks", b ≠ 35 := by decide

theorem users_slash_clean :
    containsCTLByte (str "http://localhost:8080/api/users/") = false ∧
      ∀ b ∈ str "http://localhost:8080/api/users/", b ≠ 35 := by decide

theorem tasks_slash_clean :
    containsCTLByte (str "http://localhost:8080/api/tasks/") = false ∧
      ∀ b ∈ str "http://localhost:8080/api/tasks/", b ≠ 35 := by decide

theorem nil_clean : containsCTLByte [] = false ∧ ∀ b ∈ ([] : GoString), b ≠ 35 := by decide

theorem NewRequest_api_nil (method pre : GoString) (i : Int) (body : Option Payload)
    (hpre : containsCTLByte pre = false ∧ ∀ b ∈ pre, b ≠ 35) :
    NewRequest method (pre ++ Itoa i) body =
      some { method := method, url := pre ++ Itoa i, body := body } := by
  have h := NewRequest_api method pre [] i body hpre nil_clean
  simpa using h

/-- Run of the user create handler on a passport of at least 5 bytes. -/
theorem userCreateHandler_long (env : Env) (r : Request) (hm : r.method = str "POST")
    (hlen : 5 ≤ (r.formValue (str "passport")).length) :
    ∀ req, req = BackendRequest.mk (str "POST") (str "http://localhost:8080/api/users")
        (some (Payload.user (jsonString (r.formValue (str "name")))
          (jsonString ((r.formValue (str "passport")).take 4 ++ str " " ++
            (r.formValue (str "passport")).drop 5)))) →
    userCreateHandler env r =
      ⟨(Do env req).1,
        match (Do env req).2 with
        | BackendReply.failed => Outcome.error (str "Failed to create user") 500
        | BackendReply.response _ _ _ => Outcome.redirect (str "/users") 303⟩ := by
  intro req hreq
  have h4 : 4 ≤ (r.formValue (str "passport")).length := by omega
  unfold userCreateHandler
  simp only [hm, if_true, sliceTo, sliceFrom, h4, hlen, Marshal, Post,
    NewRequest_clean _ _ _ users_url_clean.1 users_url_clean.2, ← hreq]
  rcases Do env req with ⟨calls, reply⟩
  cases reply <;> rfl

/-- Run of the user update handler once the form has parsed, the id is an
integer and the passport has at least 6 bytes. -/
theorem userUpdateHandler_long (env : Env) (r : Request) (userID : Int)
    (hm : r.method = str "POST") (hform : r.parseFormFails = false)
    (hid : Atoi (r.formValue (str "user_id")) = (userID, none))
    (hlen : 6 ≤ (r.formValue (str "new_passport")).length) :
    ∀ req, req = BackendRequest.mk (str "PUT")
        (str "http://localhost:8080/api/users/" ++ Itoa userID)
        (some (Payload.user (jsonString (r.formValue (str "user_name")))
          (jsonString ((r.formValue (str "new_passport")).take 4 ++ str " " ++
            (r.formValue (str "new_passport")).drop 5)))) →
    userUpdateHandler env r =
      ⟨(Do env req).1,
        match (Do env req).2 with
        | BackendReply.failed => Outcome.error (str "Failed to update user") 500
        | BackendReply.response statusCode _ _ =>
          if statusCode ≠ 200 then httpError (str "Failed to update user") statusCode
          else Outcome.redirect (str "/users") 303⟩ := by
  intro req hreq
  have h4 : 4 ≤ (r.formValue (str "new_passport")).length := by omega
  have h5 : 5 ≤ (r.formValue (str "new_passport")).length := by omega
  have h6 : ¬ (r.formValue (str "new_passport")).length < 6 := by omega
  unfold userUpdateHandler
  simp only [hm, if_true, hform, hid, h6, if_false, sliceTo, sliceFrom, h4, h5, Marshal,
    NewRequest_api_nil _ _ _ _ users_slash_clean, Bool.false_eq_true, ← hreq]
  rcases Do env req with ⟨calls, reply⟩
  cases reply with
  | failed => rfl
  | response statusCode location body =>
    by_cases hs : statusCode = 200
    · simp [hs]
    · simp [hs]

/-- The user update handler sends nothing unless the form parses, the id is
an integer and the passport has at least 6 bytes. -/
theorem userUpdateHandler_calls (env : Env) (r : Request)
    (hcalls : (userUpdateHandler env r).calls ≠ []) :
    r.method = str "POST" ∧ 6 ≤ (r.formValue (str "new_passport")).length ∧
      r.parseFormFails = false ∧ (Atoi (r.formValue (str "user_id"))).2 = none := by
  by_cases hm : r.method = str "POST"
  · cases hform : r.parseFormFails with
    | true => simp [userUpdateHandler, hm, hform] at hcalls
    | false =>
      rcases hid : Atoi (r.formValue (str "user_id")) with ⟨userID, err⟩
      cases err with
      | some e => simp [userUpdateHandler, hm, hform, hid] at hcalls
      | none =>
        by_cases hlen : (r.formValue (str "new_passport")).length < 6
        · simp [userUpdateHandler, hm, hform, hid, hlen] at hcalls
        · exact ⟨hm, by omega, rfl, rfl⟩
  · simp [userUpdateHandler, hm] at hcalls

/-- Run of the task create handler once the form has parsed and the payload
marshals. -/
theorem taskCreateHandler_run (env : Env) (r : Request) (hm : r.method = str "POST")
    (hform : r.parseFormFails = false) :
    ∀ body, Marshal (Payload.task (Atoi (r.formValue (str "user_id"))).1
        (r.formValue (str "description")) (env.ParseFloat (r.formValue (str "rate")))
        (Atoi (r.formValue (str "deadline"))).1) = some body →
    ∀ req, req = BackendRequest.mk (str "POST") (str "http://localhost:8080/api/tasks")
        (some body) →
    taskCreateHandler env r =
      ⟨(Do env req).1,
        match (Do env req).2 with
        | BackendReply.failed => Outcome.error (str "Failed to create task") 500
        | BackendReply.response statusCode _ _ =>
          if statusCode ≠ 201 then httpError (str "Failed to create task") statusCode
          else Outcome.redirect (str "/") 303⟩ := by
  intro body hbody req hreq
  unfold taskCreateHandler
  simp only [hm, if_true, hform, Bool.false_eq_true, if_false, hbody, Post,
    NewRequest_clean _ _ _ tasks_url_clean.1 tasks_url_clean.2, ← hreq]
  rcases Do env req with ⟨calls, reply⟩
  cases reply with
  | failed => rfl
  | response statusCode location body =>
    by_cases hs : statusCode = 201
    · simp [hs]
    · simp [hs]

/-- Run of the task delete handler. -/
theorem taskDeleteHandler_run (env : Env) (r : Request) (hm : r.method = str "POST") :
    ∀ req, req = BackendRequest.mk (str "DELETE")
        (str "http://localhost:8080/api/tasks/" ++ Itoa (Atoi (r.formValue (str "task_id"))).1)
        none →
    taskDeleteHandler env r =
      ⟨(Do env req).1,
        match (Do env req).2 with
        | BackendReply.failed => Outcome.error (str "Failed to delete task") 500
        | BackendReply.response _ _ _ => Outcome.redirect (str "/") 303⟩ := by
  intro req hreq
  unfold taskDeleteHandler
  simp only [hm, if_true, NewRequest_api_nil _ _ _ _ tasks_slash_clean, ← hreq]
  rcases Do env req with ⟨calls, reply⟩
  cases reply <;> rfl

/-- Run of the task update handler on a target URL of the backend. -/
theorem taskUpdateHandler_run (env : Env) (r : Request) (hm : r.method = str "POST")
    (suffix : GoString) (hsuf : containsCTLByte suffix = false ∧ ∀ b ∈ suffix, b ≠ 35)
    (hurl : taskUpdateURL (Atoi (r.formValue (str "task_id"))).1 (r.formValue (str "action")) =
      str "http://localhost:8080/api/tasks/" ++ Itoa (Atoi (r.formValue (str "task_id"))).1 ++
        suffix) :
    ∀ req, req = BackendRequest.mk (str "POST")
        (str "http://localhost:8080/api/tasks/" ++ Itoa (Atoi (r.formValue (str "task_id"))).1 ++
          suffix) none →
    taskUpdateHandler env r =
      ⟨(Do env req).1,
        match (Do env req).2 with
        | BackendReply.failed => Outcome.error (str "Failed to update task") 500
        | BackendReply.response _ _ _ => Outcome.redirect (str "/") 303⟩ := by
  intro req hreq
  unfold taskUpdateHandler
  simp only [hm, if_true, hurl, NewRequest_api _ _ _ _ _ tasks_slash_clean hsuf, ← hreq]
  rcases Do env req with ⟨calls, reply⟩
  cases reply <;> rfl

theorem getTasksURL_http (userID : Int) (sortBy : GoString) :
    str "http://" <+: getTasksURL userID sortBy := by
  unfold getTasksURL
  split
  · rw [List.append_assoc, List.append_assoc]
    exact List.IsPrefix.trans (by decide) (List.prefix_append _ _)
  · exact List.IsPrefix.trans (by decide) (List.prefix_append _ _)

/-- The requests of `getTasks` are those of `Do` on the `GET` of its URL, and
there are none when the URL does not parse. -/
theorem getTasks_calls (env : Env) (userID : Int) (sortBy : GoString) :
    (getTasks env userID sortBy).1 =
      match NewRequest (str "GET") (getTasksURL userID sortBy) none with
      | none => []
      | some req => (Do env req).1 := by
  unfold getTasks Get
  cases NewRequest (str "GET") (getTasksURL userID sortBy) none with
  | none => rfl
  | some req =>
    simp only
    rcases Do env req with ⟨calls, reply⟩
    cases reply with
    | failed => rfl
    | response statusCode location body => cases body <;> rfl

theorem NewRequest_some (method url : GoString) (body : Option Payload) (req : BackendRequest)
    (h : NewRequest method url body = some req) :
    req = { method := method, url := url, body := body } := by
  unfold NewRequest at h
  split at h
  · simp at h
  · simpa using h.symm

/-! ## Lemmas on the query of the tasks URL -/

theorem splitOn_of_not_mem (sep : UInt8) (a : GoString) (h : sep ∉ a) :
    splitOn sep a = [a] := by
  induction a with
  | nil => rfl
  | cons c cs ih =>
    have hc : c ≠ sep := fun e => h (e ▸ List.mem_cons_self _ _)
    have hcs : sep ∉ cs := fun e => h (List.mem_cons_of_mem _ e)
    simp [splitOn, hc, ih hcs]

theorem splitOn_append_sep (sep : UInt8) (a b : GoString) (h : sep ∉ a) :
    splitOn sep (a ++ sep :: b) = a :: splitOn sep b := by
  induction a with
  | nil => simp [splitOn]
  | cons c cs ih =>
    have hc : c ≠ sep := fun e => h (e ▸ List.mem_cons_self _ _)
    have hcs : sep ∉ cs := fun e => h (List.mem_cons_of_mem _ e)
    simp [splitOn, hc, ih hcs]

theorem rawQuery_append (base q : GoString) (hb : ∀ b ∈ base, b ≠ 35 ∧ b ≠ 63) :
    rawQuery (base ++ 63 :: q) = q.takeWhile fun b => b != 35 := by
  unfold rawQuery
  rw [List.takeWhile_append_of_pos (by intro a ha; simpa using (hb a ha).1)]
  rw [List.takeWhile_cons_of_pos (by decide)]
  rw [List.dropWhile_append_of_pos (by intro a ha; simpa using (hb a ha).2)]
  rw [List.dropWhile_cons_of_neg (by decide)]
  rfl

theorem not_mem_takeWhile (x : UInt8) (p : UInt8 → Bool) (l : GoString) (h : x ∉ l) :
    x ∉ l.takeWhile p :=
  fun hx => h ((List.takeWhile_sublist p).subset hx)

/-- Cutting a piece `key=value` whose key has no `=`. -/
theorem cut_key_value (key value : GoString) (hk : ∀ b ∈ key, b ≠ 61) :
    ((key ++ 61 :: value).takeWhile fun b => b != 61) = key ∧
    (((key ++ 61 :: value).dropWhile fun b => b != 61).drop 1) = value := by
  constructor
  · rw [List.takeWhile_append_of_pos (by intro a ha; simpa using hk a ha)]
    rw [List.takeWhile_cons_of_neg (by decide)]
    simp
  · rw [List.dropWhile_append_of_pos (by intro a ha; simpa using hk a ha)]
    rw [List.dropWhile_cons_of_neg (by decide)]
    rfl

theorem Itoa_ne_byte (i : Int) (hi : 0 ≤ i) (x : UInt8) (hx : x.toNat < 48) : x ∉ Itoa i := by
  intro h
  have := Itoa_digits i hi x h
  omega

theorem tasks_user_id_literal :
    str "http://localhost:8080/api/tasks?user_id=" =
      str "http://localhost:8080/api/tasks" ++ 63 :: (str "user_id" ++ [61]) := by decide

theorem tasks_sort_by_literal :
    str "http://localhost:8080/api/tasks?sort_by=" =
      str "http://localhost:8080/api/tasks" ++ 63 :: (str "sort_by" ++ [61]) := by decide

theorem sort_by_literal : str "&sort_by=" = 38 :: (str "sort_by" ++ [61]) := by decide

theorem tasks_base_clean : ∀ b ∈ str "http://localhost:8080/api/tasks", b ≠ 35 ∧ b ≠ 63 := by
  decide

/-- The parameters of the part `sort_by=...` of the query when the sort key
has no `&`. -/
theorem params_sort_by (t : GoString) (ht : 38 ∉ t) :
    (((splitOn 38 (str "sort_by" ++ 61 :: t)).filter fun seg => seg != []).map fun seg =>
      (seg.takeWhile fun b => b != 61, (seg.dropWhile fun b => b != 61).drop 1)) =
        [(str "sort_by", t)] := by
  have hmem : (38 : UInt8) ∉ str "sort_by" ++ 61 :: t := by
    intro h
    rcases List.mem_append.mp h with h1 | h1
    · revert h1; decide
    · rcases List.mem_cons.mp h1 with h2 | h2
      · revert h2; decide
      · exact ht h2
  have hk : ∀ b ∈ str "sort_by", b ≠ 61 := by decide
  rw [splitOn_of_not_mem _ _ hmem]
  have hne : (str "sort_by" ++ 61 :: t != []) = true := by
    cases hst : str "sort_by" ++ 61 :: t with
    | nil => simp at hst
    | cons _ _ => rfl
  simp only [List.filter_cons, hne, if_true, List.filter_nil, List.map_cons, List.map_nil]
  rw [(cut_key_value _ _ hk).1, (cut_key_value _ _ hk).2]

theorem getTasksURL_pos (userID : Int) (sortBy : GoString) (h : userID > 0) :
    getTasksURL userID sortBy = str "http://localhost:8080/api/tasks" ++
      63 :: ((str "user_id" ++ 61 :: Itoa userID) ++ 38 :: (str "sort_by" ++ 61 :: sortBy)) := by
  unfold getTasksURL
  rw [if_pos h, tasks_user_id_literal, sort_by_literal]
  simp [List.append_assoc]

theorem getTasksURL_nonpos (userID : Int) (sortBy : GoString) (h : ¬ userID > 0) :
    getTasksURL userID sortBy = str "http://localhost:8080/api/tasks" ++
      63 :: (str "sort_by" ++ 61 :: sortBy) := by
  unfold getTasksURL
  rw [if_neg h, tasks_sort_by_literal]
  simp [List.append_assoc]

theorem user_id_piece_clean (userID : Int) (h : userID > 0) (x : UInt8)
    (hx : x = 35 ∨ x = 38) : x ∉ str "user_id" ++ 61 :: Itoa userID := by
  intro hmem
  rcases List.mem_append.mp hmem with h1 | h1
  · rcases hx with hx | hx <;> subst hx <;> revert h1 <;> decide
  · rcases List.mem_cons.mp h1 with h2 | h2
    · rcases hx with hx | hx <;> subst hx <;> revert h2 <;> decide
    · refine Itoa_ne_byte userID (by omega) x ?_ h2
      rcases hx with hx | hx <;> subst hx <;> decide

theorem rawQuery_pos (userID : Int) (sortBy : GoString) (h : userID > 0) :
    rawQuery (getTasksURL userID sortBy) = (str "user_id" ++ 61 :: Itoa userID) ++
      38 :: (str "sort_by" ++ 61 :: sortBy.takeWhile fun b => b != 35) := by
  rw [getTasksURL_pos userID sortBy h, rawQuery_append _ _ tasks_base_clean]
  rw [List.takeWhile_append_of_pos (by
    intro a ha
    have : a ≠ 35 := fun e => user_id_piece_clean userID h a (Or.inl e) ha
    simpa using this)]
  rw [List.takeWhile_cons_of_pos (by decide)]
  rw [List.takeWhile_append_of_pos (by decide)]
  rw [List.takeWhile_cons_of_pos (by decide)]

theorem rawQuery_nonpos (userID : Int) (sortBy : GoString) (h : ¬ userID > 0) :
    rawQuery (getTasksURL userID sortBy) =
      str "sort_by" ++ 61 :: sortBy.takeWhile fun b => b != 35 := by
  rw [getTasksURL_nonpos userID sortBy h, rawQuery_append _ _ tasks_base_clean]
  rw [List.takeWhile_append_of_pos (by decide)]
  rw [List.takeWhile_cons_of_pos (by decide)]

/-- With a positive id the first parameter of the URL is `user_id`, with the
rendering of the id as its value. -/
theorem queryParams_pos (userID : Int) (sortBy : GoString) (h : userID > 0) :
    queryParams (getTasksURL userID sortBy) = (str "user_id", Itoa userID) ::
      (((splitOn 38 (str "sort_by" ++ 61 :: sortBy.takeWhile fun b => b != 35)).filter
        fun seg => seg != []).map fun seg =>
          (seg.takeWhile fun b => b != 61, (seg.dropWhile fun b => b != 61).drop 1)) := by
  unfold queryParams
  rw [rawQuery_pos userID sortBy h,
    splitOn_append_sep _ _ _ (user_id_piece_clean userID h 38 (Or.inr rfl))]
  have hne : (str "user_id" ++ 61 :: Itoa userID != []) = true := by
    cases hst : str "user_id" ++ 61 :: Itoa userID with
    | nil => simp at hst
    | cons _ _ => rfl
  have hk : ∀ b ∈ str "user_id", b ≠ 61 := by decide
  rw [List.filter_cons, hne, if_pos rfl, List.map_cons, (cut_key_value _ _ hk).1,
    (cut_key_value _ _ hk).2]

theorem decimalValue_formatBits (fuel u : Nat) (acc : GoString) (hu : u < 10 ^ fuel) :
    (formatBits fuel u acc).foldl (fun a b => a * 10 + (b.toNat - 48)) 0 =
      acc.foldl (fun a b => a * 10 + (b.toNat - 48)) u := by
  induction fuel generalizing u acc with
  | zero =>
    have : u = 0 := by simpa using hu
    subst this
    rfl
  | succ fuel ih =>
    have hval : (UInt8.ofNat (48 + u % 10)).toNat = (48 + u % 10) % 256 := rfl
    have h10 : u % 10 < 10 := Nat.mod_lt _ (by decide)
    have hd : (UInt8.ofNat (48 + u % 10)).toNat - 48 = u % 10 := by rw [hval]; omega
    simp only [formatBits]
    split
    · next h0 =>
      rw [List.foldl_cons, hd]
      have : 0 * 10 + u % 10 = u := by omega
      rw [this]
    · next h0 =>
      have hlt : u / 10 < 10 ^ fuel := by
        rw [Nat.div_lt_iff_lt_mul (by decide)]
        rw [pow_succ] at hu
        exact hu
      rw [ih (u / 10) _ hlt, List.foldl_cons, hd]
      have : u / 10 * 10 + u % 10 = u := by omega
      rw [this]

theorem lt_ten_pow_succ (u : Nat) : u < 10 ^ (u + 1) :=
  lt_of_lt_of_le (Nat.lt_pow_self (by decide) u) (Nat.pow_le_pow_right (by decide) (Nat.le_succ u))

/-- The digits of `Itoa i`, read in base 10, give back a non-negative `i`. -/
theorem decimalValue_Itoa (i : Int) (hi : 0 ≤ i) : (decimalValue (Itoa i) : Int) = i := by
  unfold Itoa decimalValue
  rw [if_neg (by omega), decimalValue_formatBits _ _ _ (lt_ten_pow_succ _)]
  simp only [List.foldl_nil]
  omega

/-! ## Lemmas on `strconv.Atoi` -/

theorem ParseInt_syntax_zero (s : GoString) (h : (ParseInt s).2 = some NumError.ErrSyntax) :
    (ParseInt s).1 = 0 := by
  unfold ParseInt at h ⊢
  cases s with
  | nil => rfl
  | cons c cs =>
    simp only at h ⊢
    generalize ParseUint (if c = 43 then cs else if c = 45 then cs else c :: cs) intSize = pu
      at h ⊢
    rcases pu with ⟨un, e⟩
    cases e with
    | none =>
      simp only at h ⊢
      split_ifs at h <;> simp at h
    | some e =>
      cases e with
      | ErrSyntax => rfl
      | ErrRange =>
        simp only at h ⊢
        split_ifs at h <;> simp at h

/-- When `Atoi` reports a syntax error, the value that comes with it is 0. -/
theorem Atoi_syntax_zero (s : GoString) (h : (Atoi s).2 = some NumError.ErrSyntax) :
    (Atoi s).1 = 0 := by
  unfold Atoi at h ⊢
  cases s with
  | nil => exact ParseInt_syntax_zero _ h
  | cons c cs =>
    simp only at h ⊢
    by_cases hlen : (c :: cs).length < 19
    · simp only [hlen, if_true] at h ⊢
      generalize (if c = 45 ∨ c = 43 then cs else c :: cs) = s1 at h ⊢
      by_cases h1 : s1.length < 1
      · simp only [h1, if_true]
      · simp only [h1, if_false] at h ⊢
        cases hloop : atoiFastLoop s1 0 with
        | none => rfl
        | some n => simp [hloop] at h
    · simp only [hlen, if_false] at h ⊢
      exact ParseInt_syntax_zero _ h

/-- On a string of fewer than 19 bytes every failure of `Atoi` is a syntax
error. -/
theorem Atoi_short_error (s : GoString) (hlen : s.length < 19) (h : (Atoi s).2 ≠ none) :
    (Atoi s).2 = some NumError.ErrSyntax := by
  unfold Atoi at h ⊢
  cases s with
  | nil => rfl
  | cons c cs =>
    simp only [hlen, if_true] at h ⊢
    generalize (if c = 45 ∨ c = 43 then cs else c :: cs) = s1 at h ⊢
    by_cases h1 : s1.length < 1
    · simp only [h1, if_true]
    · simp only [h1, if_false] at h ⊢
      cases hloop : atoiFastLoop s1 0 with
      | none => rfl
      | some n => simp [hloop] at h

/-! ## The claims -/

set_option maxRecDepth 100000

/-- C1 (amended): the first request that `getTasks` sends is a `GET` of
`getTasksURL userID sortBy` (it is sent as soon as that URL parses, and it
is the only one when the round trip fails or the backend answers with
anything but a redirect, which `http.Get` follows).  For every `sortBy`
without a `&` byte that URL has a `user_id` query parameter if and only if
`userID > 0`; and for every
`sortBy`, when `userID > 0` its first `user_id` parameter is `Itoa userID`,
a string of decimal digits whose value is `userID` (its only `user_id`
parameter when `sortBy` has no `&`). -/
theorem getTasks_user_id_param (userID : Int) (sortBy : GoString) :
    (∀ env req, (getTasks env userID sortBy).1.head? = some req →
      req = BackendRequest.mk (str "GET") (getTasksURL userID sortBy) none) ∧
    (∀ env, NewRequest (str "GET") (getTasksURL userID sortBy) none ≠ none →
      (getTasks env userID sortBy).1.head? =
        some (BackendRequest.mk (str "GET") (getTasksURL userID sortBy) none) ∧
      (∀ statusCode location body,
        env.backend (BackendRequest.mk (str "GET") (getTasksURL userID sortBy) none) =
          BackendReply.response statusCode location body →
        (statusCode ≠ 301 ∧ statusCode ≠ 302 ∧ statusCode ≠ 303 ∧ statusCode ≠ 307 ∧
          statusCode ≠ 308) →
        (getTasks env userID sortBy).1 =
          [BackendRequest.mk (str "GET") (getTasksURL userID sortBy) none]) ∧
      (env.backend (BackendRequest.mk (str "GET") (getTasksURL userID sortBy) none) =
          BackendReply.failed →
        (getTasks env userID sortBy).1 =
          [BackendRequest.mk (str "GET") (getTasksURL userID sortBy) none])) ∧
    (38 ∉ sortBy →
      (queryValues (getTasksURL userID sortBy) (str "user_id") ≠ [] ↔ userID > 0)) ∧
    (userID > 0 →
      (queryValues (getTasksURL userID sortBy) (str "user_id")).head? = some (Itoa userID) ∧
      (∀ b ∈ Itoa userID, 48 ≤ b.toNat ∧ b.toNat ≤ 57) ∧
      (decimalValue (Itoa userID) : Int) = userID ∧
      (38 ∉ sortBy →
        queryValues (getTasksURL userID sortBy) (str "user_id") = [Itoa userID])) := by
  have hkey : (str "sort_by" == str "user_id") = false := by decide
  refine ⟨?_, ?_, ?_, ?_⟩
  · intro env req hreq
    rw [getTasks_calls] at hreq
    cases hnew : NewRequest (str "GET") (getTasksURL userID sortBy) none with
    | none => simp [hnew] at hreq
    | some req0 =>
      have hreq0 := NewRequest_some _ _ _ _ hnew
      simp only [hnew] at hreq
      rw [Do_head env req0 (by rw [hreq0]; exact getTasksURL_http userID sortBy)] at hreq
      rw [← hreq0]
      exact (Option.some.inj hreq).symm
  · intro env hnew
    cases hnew1 : NewRequest (str "GET") (getTasksURL userID sortBy) none with
    | none => exact absurd hnew1 hnew
    | some req0 =>
      have hreq0 := NewRequest_some _ _ _ _ hnew1
      have hpre : str "http://" <+: req0.url := by
        rw [hreq0]; exact getTasksURL_http userID sortBy
      refine ⟨?_, ?_, ?_⟩
      · rw [getTasks_calls, hnew1]
        simp only
        rw [Do_head env req0 hpre, hreq0]
      · intro statusCode location body hreply hs
        rw [getTasks_calls, hnew1]
        simp only
        rw [← hreq0] at hreply
        rw [Do_direct env req0 statusCode location body hpre hreply hs]
        show [req0] = _
        rw [hreq0]
      · intro hreply
        rw [getTasks_calls, hnew1]
        simp only
        rw [← hreq0] at hreply
        rw [Do_failed env req0 hpre hreply]
        show [req0] = _
        rw [hreq0]
  · intro hamp
    have hamp1 : (38 : UInt8) ∉ sortBy.takeWhile fun b => b != 35 :=
      not_mem_takeWhile _ _ _ hamp
    by_cases h : userID > 0
    · simp only [h, iff_true]
      unfold queryValues
      rw [queryParams_pos userID sortBy h]
      simp
    · simp only [h, iff_false, not_not]
      unfold queryValues queryParams
      rw [rawQuery_nonpos userID sortBy h, params_sort_by _ hamp1]
      simp [hkey]
  · intro h
    refine ⟨?_, fun b hb => Itoa_digits userID (by omega) b hb,
      decimalValue_Itoa userID (by omega), ?_⟩
    · unfold queryValues
      rw [queryParams_pos userID sortBy h]
      simp
    · intro hamp
      unfold queryValues
      rw [queryParams_pos userID sortBy h,
        params_sort_by _ (not_mem_takeWhile _ _ _ hamp)]
      simp [hkey]

theorem getTasks_user_id_param_witness :
    (queryValues (getTasksURL 5 (str "name")) (str "user_id") ≠ [] ↔ (5 : Int) > 0) ∧
    (queryValues (getTasksURL 5 (str "name")) (str "user_id")).head? = some (Itoa 5) ∧
    (getTasks (sampleEnv (answering 200)) 5 (str "name")).1.head? =
      some (BackendRequest.mk (str "GET") (getTasksURL 5 (str "name")) none) :=
  ⟨(getTasks_user_id_param 5 (str "name")).2.2.1 (by decide),
    ((getTasks_user_id_param 5 (str "name")).2.2.2 (by decide)).1,
    ((getTasks_user_id_param 5 (str "name")).2.1 (sampleEnv (answering 200)) (by decide)).1⟩

/-- C1, as stated, fails: with `userID = 0` and the sort key
`name&user_id=7` the URL is `.../tasks?sort_by=name&user_id=7`, which has a
`user_id` parameter (of value `7`) although `userID > 0` does not hold. -/
theorem getTasks_user_id_param_injected :
    getTasksURL 0 (str "name&user_id=7") =
      str "http://localhost:8080/api/tasks?sort_by=name&user_id=7" ∧
    queryValues (getTasksURL 0 (str "name&user_id=7")) (str "user_id") = [str "7"] ∧
    ¬ (queryValues (getTasksURL 0 (str "name&user_id=7")) (str "user_id") ≠ [] ↔
        (0 : Int) > 0) := by
  decide

/-- C2 (amended): when `strconv.Atoi` fails on the `user_id` query parameter
with a syntax error (as it does on the empty string and on `abc`, and as
every failure on a value of fewer than 19 bytes is), the dashboard handler
runs with user id 0: it continues exactly as with
`userID = 0`, once the users are loaded the request it sends for the tasks
is the one of `getTasks` with `userID = 0`, and a view-model it renders has
`Filter.UserID = 0` and the tasks that `getTasks` returned for `userID = 0`. -/
theorem dashboard_syntax_error_user_zero (env : Env) (r : Request)
    (h : (Atoi (r.query (str "user_id"))).2 = some NumError.ErrSyntax) :
    dashboardHandler env r = dashboardBody env 0 (r.query (str "sort_by")) ∧
    (∀ users, (getUsers env).2 = some users →
      (dashboardHandler env r).calls =
        (getUsers env).1 ++ (getTasks env 0 (r.query (str "sort_by"))).1) ∧
    (∀ data, (dashboardHandler env r).outcome = Outcome.rendered data →
      data.Filter.UserID = 0 ∧
      (getTasks env 0 (r.query (str "sort_by"))).2 = some data.Tasks) ∧
    (Atoi (str "")).2 = some NumError.ErrSyntax ∧
    (Atoi (str "abc")).2 = some NumError.ErrSyntax ∧
    (∀ s : GoString, s.length < 19 → (Atoi s).2 ≠ none →
      (Atoi s).2 = some NumError.ErrSyntax) := by
  have hrun : dashboardHandler env r = dashboardBody env 0 (r.query (str "sort_by")) := by
    unfold dashboardHandler
    simp only [Atoi_syntax_zero _ h]
  refine ⟨hrun, ?_, ?_, by decide, by decide, Atoi_short_error⟩
  · intro users hu
    rw [hrun]
    unfold dashboardBody
    rcases hgu : getUsers env with ⟨c1, ou⟩
    rw [hgu] at hu
    simp only at hu
    subst hu
    simp only
    rcases hgt : getTasks env 0 (r.query (str "sort_by")) with ⟨c2, ot⟩
    cases ot with
    | none => rfl
    | some tasks =>
      simp only
      cases env.parseFilesError (str "templates/index.html") with
      | some e => rfl
      | none =>
        simp only
        cases env.executeError _ <;> rfl
  · intro data hd
    rw [hrun] at hd
    unfold dashboardBody at hd
    rcases hgu : getUsers env with ⟨c1, ou⟩
    rw [hgu] at hd
    cases ou with
    | none => simp at hd
    | some users =>
      simp only at hd
      rcases hgt : getTasks env 0 (r.query (str "sort_by")) with ⟨c2, ot⟩
      rw [hgt] at hd
      cases ot with
      | none => simp at hd
      | some tasks =>
        simp only at hd
        cases hpf : env.parseFilesError (str "templates/index.html") with
        | some e => simp [hpf] at hd
        | none =>
          simp only [hpf] at hd
          cases hex : env.executeError
              { Users := users, Tasks := tasks,
                Filter := { UserID := 0, SortBy := r.query (str "sort_by") } } with
          | some e => simp [hex] at hd
          | none =>
            simp only [hex, Outcome.rendered.injEq] at hd
            subst hd
            exact ⟨rfl, rfl⟩

theorem dashboard_syntax_error_user_zero_witness :
    dashboardHandler (sampleEnv (answering 200)) (queryRequest [(str "user_id", str "abc")]) =
      dashboardBody (sampleEnv (answering 200)) 0
        ((queryRequest [(str "user_id", str "abc")]).query (str "sort_by")) :=
  (dashboard_syntax_error_user_zero (sampleEnv (answering 200))
    (queryRequest [(str "user_id", str "abc")]) (by decide)).1

/-- C2, as stated, fails on an out-of-range digit string: `Atoi` fails on
`99999999999999999999` with a range error and returns `2^63 - 1` with it, so
the handler asks the backend for the tasks of user 9223372036854775807 and
puts that id in the view-model. -/
theorem dashboard_out_of_range_user_id :
    Atoi (str "99999999999999999999") = (9223372036854775807, some NumError.ErrRange) ∧
    dashboardHandler (sampleEnv (answering 200)) (queryRequest [(str "user_id", str "99999999999999999999")])
      = ⟨[BackendRequest.mk (str "GET")
            (str "http://localhost:8080/api/users?offset=0&limit=100") none,
          BackendRequest.mk (str "GET")
            (str "http://localhost:8080/api/tasks?user_id=9223372036854775807&sort_by=") none],
         Outcome.rendered
          { Users := [], Tasks := [], Filter := { UserID := 9223372036854775807, SortBy := [] } }⟩ := by
  decide

/-- C3: passport splitting is purely positional.  For every passport of at
least 5 bytes the two slice expressions of the handlers succeed, the series
is bytes 0..3 and the number is everything from byte 5 on, and neither
depends on byte 4.  The request of the user create handler carries
`series + " " + number`, JSON-encoded, for every such passport; so does the
request of the user update handler whenever it sends one, which it does as
soon as the form parses, the id is an integer and the passport has at least
6 bytes (it turns shorter ones down before the split).  `AB12 345678` gives
`AB12` and `345678`; `AB1234567` gives `AB12` and `4567`. -/
theorem passport_split_positional :
    (∀ p : GoString, 5 ≤ p.length →
      sliceTo p 4 = some (p.take 4) ∧ sliceFrom p 5 = some (p.drop 5) ∧
      (p.take 4).length = 4 ∧ (∀ i, i < 4 → (p.take 4)[i]? = p[i]?) ∧
      (p.drop 5).length = p.length - 5 ∧ (∀ j, (p.drop 5)[j]? = p[5 + j]?) ∧
      (∀ b, sliceTo (p.set 4 b) 4 = sliceTo p 4 ∧ sliceFrom (p.set 4 b) 5 = sliceFrom p 5)) ∧
    (∀ env r, r.method = str "POST" → 5 ≤ (r.formValue (str "passport")).length →
      (userCreateHandler env r).calls.head? =
        some (BackendRequest.mk (str "POST") (str "http://localhost:8080/api/users")
          (some (Payload.user (jsonString (r.formValue (str "name")))
            (jsonString ((r.formValue (str "passport")).take 4 ++ str " " ++
              (r.formValue (str "passport")).drop 5)))))) ∧
    (∀ env r, (userUpdateHandler env r).calls ≠ [] →
      6 ≤ (r.formValue (str "new_passport")).length ∧
      (userUpdateHandler env r).calls.head? =
        some (BackendRequest.mk (str "PUT")
          (str "http://localhost:8080/api/users/" ++
            Itoa (Atoi (r.formValue (str "user_id"))).1)
          (some (Payload.user (jsonString (r.formValue (str "user_name")))
            (jsonString ((r.formValue (str "new_passport")).take 4 ++ str " " ++
              (r.formValue (str "new_passport")).drop 5)))))) ∧
    (∀ env r userID, r.method = str "POST" → r.parseFormFails = false →
      Atoi (r.formValue (str "user_id")) = (userID, none) →
      6 ≤ (r.formValue (str "new_passport")).length →
      (userUpdateHandler env r).calls.head? =
        some (BackendRequest.mk (str "PUT")
          (str "http://localhost:8080/api/users/" ++ Itoa userID)
          (some (Payload.user (jsonString (r.formValue (str "user_name")))
            (jsonString ((r.formValue (str "new_passport")).take 4 ++ str " " ++
              (r.formValue (str "new_passport")).drop 5)))))) ∧
    (sliceTo (str "AB12 345678") 4 = some (str "AB12") ∧
      sliceFrom (str "AB12 345678") 5 = some (str "345678")) ∧
    (sliceTo (str "AB1234567") 4 = some (str "AB12") ∧
      sliceFrom (str "AB1234567") 5 = some (str "4567")) := by
  have hupdate : ∀ (env : Env) (r : Request) (userID : Int), r.method = str "POST" →
      r.parseFormFails = false → Atoi (r.formValue (str "user_id")) = (userID, none) →
      6 ≤ (r.formValue (str "new_passport")).length →
      (userUpdateHandler env r).calls.head? =
        some (BackendRequest.mk (str "PUT")
          (str "http://localhost:8080/api/users/" ++ Itoa userID)
          (some (Payload.user (jsonString (r.formValue (str "user_name")))
            (jsonString ((r.formValue (str "new_passport")).take 4 ++ str " " ++
              (r.formValue (str "new_passport")).drop 5))))) := by
    intro env r userID hm hform hid h6
    rw [userUpdateHandler_long env r userID hm hform hid h6 _ rfl]
    exact Do_head env _ (literal_http _ _ (by decide))
  refine ⟨?_, ?_, ?_, hupdate, by decide, by decide⟩
  · intro p hp
    refine ⟨?_, ?_, ?_, ?_, ?_, ?_, ?_⟩
    · unfold sliceTo
      rw [if_pos (by omega)]
    · unfold sliceFrom
      rw [if_pos hp]
    · rw [List.length_take]; omega
    · intro i hi
      rw [List.getElem?_take, if_pos hi]
    · rw [List.length_drop]
    · intro j
      rw [List.getElem?_drop]
    · intro b
      unfold sliceTo sliceFrom
      rw [List.length_set, take_set_four, drop_set_five]
      exact ⟨rfl, rfl⟩
  · intro env r hm hlen
    rw [userCreateHandler_long env r hm hlen _ rfl]
    exact Do_head env _
      (show str "http://" <+: str "http://localhost:8080/api/users" from by decide)
  · intro env r hcalls
    obtain ⟨hm, h6, hform, hid⟩ := userUpdateHandler_calls env r hcalls
    have hid1 : Atoi (r.formValue (str "user_id")) =
        ((Atoi (r.formValue (str "user_id"))).1, none) := by
      rw [← hid]
    exact ⟨h6, hupdate env r _ hm hform hid1 h6⟩

theorem passport_split_positional_witness :
    (userCreateHandler (sampleEnv (answering 201))
        (formRequest [(str "name", str "Ann"), (str "passport", str "AB1234567")]
          false)).calls.head? =
      some (BackendRequest.mk (str "POST") (str "http://localhost:8080/api/users")
        (some (Payload.user
          (jsonString ((formRequest [(str "name", str "Ann"), (str "passport", str "AB1234567")]
            false).formValue (str "name")))
          (jsonString
            (((formRequest [(str "name", str "Ann"), (str "passport", str "AB1234567")]
              false).formValue (str "passport")).take 4 ++ str " " ++
            ((formRequest [(str "name", str "Ann"), (str "passport", str "AB1234567")]
              false).formValue (str "passport")).drop 5))))) :=
  passport_split_positional.2.1 (sampleEnv (answering 201))
    (formRequest [(str "name", str "Ann"), (str "passport", str "AB1234567")] false)
    (by decide) (by decide)

/-- C4 (amended): for a request to the user update handler whose
`new_passport` form value has fewer than 6 bytes, no request to the backend
is made, whatever the other form fields are; when the form parses the
response is HTTP 400 (`Invalid user ID` if `user_id` is not an integer,
`Invalid passport format` otherwise), and when `ParseForm` fails it is
HTTP 500. -/
theorem userUpdate_short_passport (env : Env) (r : Request) (hm : r.method = str "POST")
    (hlen : (r.formValue (str "new_passport")).length < 6) :
    (userUpdateHandler env r).calls = [] ∧
    (r.parseFormFails = false →
      (∃ msg, (userUpdateHandler env r).outcome = Outcome.error msg 400) ∧
      ((Atoi (r.formValue (str "user_id"))).2 ≠ none →
        userUpdateHandler env r = ⟨[], Outcome.error (str "Invalid user ID") 400⟩) ∧
      ((Atoi (r.formValue (str "user_id"))).2 = none →
        userUpdateHandler env r = ⟨[], Outcome.error (str "Invalid passport format") 400⟩)) ∧
    (r.parseFormFails = true →
      userUpdateHandler env r = ⟨[], Outcome.error (str "Failed to parse form") 500⟩) := by
  cases hform : r.parseFormFails with
  | true =>
    have hrun : userUpdateHandler env r =
        ⟨[], Outcome.error (str "Failed to parse form") 500⟩ := by
      simp [userUpdateHandler, hm, hform]
    exact ⟨by rw [hrun], fun h => by simp at h, fun _ => hrun⟩
  | false =>
    rcases hid : Atoi (r.formValue (str "user_id")) with ⟨userID, err⟩
    cases err with
    | some e =>
      have hrun : userUpdateHandler env r = ⟨[], Outcome.error (str "Invalid user ID") 400⟩ := by
        simp [userUpdateHandler, hm, hform, hid]
      exact ⟨by rw [hrun], fun _ => ⟨⟨_, by rw [hrun]⟩, fun _ => hrun, fun h => by simp at h⟩,
        fun h => by simp at h⟩
    | none =>
      have hrun : userUpdateHandler env r =
          ⟨[], Outcome.error (str "Invalid passport format") 400⟩ := by
        simp [userUpdateHandler, hm, hform, hid, hlen]
      exact ⟨by rw [hrun], fun _ => ⟨⟨_, by rw [hrun]⟩, fun h => by simp at h, fun _ => hrun⟩,
        fun h => by simp at h⟩

theorem userUpdate_short_passport_witness :
    userUpdateHandler (sampleEnv (answering 200))
        (formRequest [(str "user_id", str "7"), (str "new_passport", str "AB12 ")] false) =
      ⟨[], Outcome.error (str "Invalid passport format") 400⟩ :=
  ((userUpdate_short_passport (sampleEnv (answering 200))
    (formRequest [(str "user_id", str "7"), (str "new_passport", str "AB12 ")] false)
    (by decide) (by decide)).2.1 (by decide)).2.2 (by decide)

/-- C4, as stated, fails when `r.ParseForm()` returns an error: the request
carries a `new_passport` of 4 bytes, and the response is HTTP 500
(`Failed to parse form`), not 400. -/
theorem userUpdate_short_passport_parse_failure :
    (formRequest [(str "user_id", str "7"), (str "new_passport", str "AB12")] true).method =
      str "POST" ∧
    ((formRequest [(str "user_id", str "7"), (str "new_passport", str "AB12")] true).formValue
      (str "new_passport")).length < 6 ∧
    userUpdateHandler (sampleEnv (answering 200))
        (formRequest [(str "user_id", str "7"), (str "new_passport", str "AB12")] true) =
      ⟨[], Outcome.error (str "Failed to parse form") 500⟩ ∧
    ∀ msg, (userUpdateHandler (sampleEnv (answering 200))
        (formRequest [(str "user_id", str "7"), (str "new_passport", str "AB12")] true)).outcome ≠
      Outcome.error msg 400 := by
  refine ⟨by decide, by decide, by decide, ?_⟩
  intro msg h
  have hrun : userUpdateHandler (sampleEnv (answering 200))
      (formRequest [(str "user_id", str "7"), (str "new_passport", str "AB12")] true) =
      ⟨[], Outcome.error (str "Failed to parse form") 500⟩ := by decide
  rw [hrun] at h
  simp at h

/-- C5 (amended): once the form parses and the payload marshals, the task
create handler posts the payload to the backend, and its run is that of
`http.Post`.  When `http.Post` returns a response, which is the reply of the
backend to the `POST` unless that reply is a 301, 302, 303, 307 or 308, then
with its status code `s`: if `s` is 201 the handler redirects to `/` with
303; if `s` is not 201 it calls `http.Error` with `s` and does not
redirect, which answers with the status `s` when `s` is 101 or between 200
and 999, and panics when `s` is below 100. -/
theorem taskCreate_status_propagated (env : Env) (r : Request)
    (hm : r.method = str "POST") (hform : r.parseFormFails = false) (body : Payload)
    (hbody : Marshal (Payload.task (Atoi (r.formValue (str "user_id"))).1
      (r.formValue (str "description")) (env.ParseFloat (r.formValue (str "rate")))
      (Atoi (r.formValue (str "deadline"))).1) = some body) :
    ∀ req, req = BackendRequest.mk (str "POST") (str "http://localhost:8080/api/tasks")
        (some body) →
      (taskCreateHandler env r).calls = (Do env req).1 ∧
      (taskCreateHandler env r).calls.head? = some req ∧
      (∀ statusCode location respBody,
        (Do env req).2 = BackendReply.response statusCode location respBody →
        (statusCode = 201 →
          (taskCreateHandler env r).outcome = Outcome.redirect (str "/") 303) ∧
        (statusCode ≠ 201 →
          (taskCreateHandler env r).outcome =
            httpError (str "Failed to create task") statusCode ∧
          (∀ url code, (taskCreateHandler env r).outcome ≠ Outcome.redirect url code) ∧
          ((statusCode = 101 ∨ 200 ≤ statusCode) → statusCode ≤ 999 →
            (taskCreateHandler env r).outcome =
              Outcome.error (str "Failed to create task") statusCode) ∧
          (statusCode < 100 → (taskCreateHandler env r).outcome = Outcome.panic))) ∧
      (∀ statusCode location respBody,
        env.backend req = BackendReply.response statusCode location respBody →
        (statusCode ≠ 301 ∧ statusCode ≠ 302 ∧ statusCode ≠ 303 ∧ statusCode ≠ 307 ∧
          statusCode ≠ 308) →
        Do env req = ([req], BackendReply.response statusCode location respBody)) := by
  intro req hreq
  have hpre : str "http://" <+: req.url := by
    rw [hreq]
    exact (show str "http://" <+: str "http://localhost:8080/api/tasks" from by decide)
  have hrun := taskCreateHandler_run env r hm hform body hbody req hreq
  refine ⟨by rw [hrun], by rw [hrun]; exact Do_head env req hpre, ?_, ?_⟩
  · intro statusCode location respBody hdo
    rw [hrun]
    simp only [hdo]
    constructor
    · intro hs
      simp [hs]
    · intro hs
      have hout : (if statusCode ≠ 201 then httpError (str "Failed to create task") statusCode
          else Outcome.redirect (str "/") 303) =
          httpError (str "Failed to create task") statusCode := by
        rw [if_pos hs]
      rw [hout]
      exact ⟨rfl, fun url code => httpError_ne_redirect _ _ url code,
        fun h1 h2 => httpError_status _ _ h1 h2, fun h => httpError_low _ _ h⟩
  · intro statusCode location respBody hreply hs
    exact Do_direct env req statusCode location respBody hpre hreply hs

theorem taskCreate_status_propagated_witness :
    (taskCreateHandler (sampleEnv (answering 500))
        (formRequest [(str "user_id", str "1")] false)).outcome =
      Outcome.error (str "Failed to create task") 500 :=
  ((((taskCreate_status_propagated (sampleEnv (answering 500))
    (formRequest [(str "user_id", str "1")] false) (by decide) (by decide)
    (Payload.task 1 [] ⟨0⟩ 0) (by decide)
    (BackendRequest.mk (str "POST") (str "http://localhost:8080/api/tasks")
      (some (Payload.task 1 [] ⟨0⟩ 0))) rfl).2.2.1
      500 [] (some (str "[]")) (by decide)).2 (by decide)).2.2.1 (by decide)) (by decide)

/-- C5, as stated, fails on two kinds of reply.  When the backend answers
the `POST` with the status 099, `http.Error` panics on that code and there
is no error response with the status of the backend.  When it answers the
`POST` with a 302 and a `Location`, the client follows with a `GET`; if
that is answered 201 the handler redirects with 303, although the status of
the reply to the create request was not 201. -/
theorem taskCreate_status_not_propagated :
    taskCreateHandler (sampleEnv (answering 99))
        (formRequest [(str "user_id", str "1")] false) =
      ⟨[BackendRequest.mk (str "POST") (str "http://localhost:8080/api/tasks")
          (some (Payload.task 1 [] ⟨0⟩ 0))],
        Outcome.panic⟩ ∧
    taskCreateHandler (sampleEnv (redirecting (str "http://localhost:8080/api/tasks") 201))
        (formRequest [(str "user_id", str "1")] false) =
      ⟨[BackendRequest.mk (str "POST") (str "http://localhost:8080/api/tasks")
          (some (Payload.task 1 [] ⟨0⟩ 0)),
        BackendRequest.mk (str "GET") (str "http://localhost:8080/api/tasks") none],
        Outcome.redirect (str "/") 303⟩ := by
  decide

/-- C6: in the task update handler an `action` other than `start` and `stop`
leaves the target URL empty, and the handler then sends nothing and answers
500, without redirecting.  For `start` and `stop` the target URL is
`/tasks/{id}/start` and `/tasks/{id}/stop` under the backend base URL,
`{id}` being the rendering of the parsed `task_id`; the handler sends a
`POST` without body to that URL first, its run is that of `client.Do` on
this request, and it redirects to `/` with 303 when `client.Do` returns a
response and answers 500 when it returns an error. -/
theorem taskUpdate_action_url (env : Env) (r : Request) (hm : r.method = str "POST") :
    (r.formValue (str "action") ≠ str "start" → r.formValue (str "action") ≠ str "stop" →
      taskUpdateURL (Atoi (r.formValue (str "task_id"))).1 (r.formValue (str "action")) = [] ∧
      taskUpdateHandler env r = ⟨[], Outcome.error (str "Failed to update task") 500⟩) ∧
    (∀ verb, (verb = str "start" ∨ verb = str "stop") → r.formValue (str "action") = verb →
      ∀ req, req = BackendRequest.mk (str "POST")
          (str "http://localhost:8080/api" ++ str "/tasks/" ++
            Itoa (Atoi (r.formValue (str "task_id"))).1 ++ str "/" ++ verb) none →
        taskUpdateURL (Atoi (r.formValue (str "task_id"))).1 (r.formValue (str "action")) =
          req.url ∧
        (taskUpdateHandler env r).calls = (Do env req).1 ∧
        (taskUpdateHandler env r).calls.head? = some req ∧
        (∀ statusCode location respBody,
          (Do env req).2 = BackendReply.response statusCode location respBody →
          (taskUpdateHandler env r).outcome = Outcome.redirect (str "/") 303) ∧
        ((Do env req).2 = BackendReply.failed →
          (taskUpdateHandler env r).outcome =
            Outcome.error (str "Failed to update task") 500)) := by
  have hlit : str "http://localhost:8080/api" ++ str "/tasks/" =
      str "http://localhost:8080/api/tasks/" := by decide
  have hstart : str "/" ++ str "start" = str "/start" := by decide
  have hstop : str "/" ++ str "stop" = str "/stop" := by decide
  refine ⟨?_, ?_⟩
  · intro h1 h2
    have hurl : taskUpdateURL (Atoi (r.formValue (str "task_id"))).1
        (r.formValue (str "action")) = [] := by
      unfold taskUpdateURL
      rw [if_neg h1, if_neg h2]
    refine ⟨hurl, ?_⟩
    unfold taskUpdateHandler
    simp only [hm, if_true, hurl]
    rfl
  · intro verb hverb haction req hreq
    have hsuf : containsCTLByte (str "/" ++ verb) = false ∧ ∀ b ∈ str "/" ++ verb, b ≠ 35 := by
      rcases hverb with h | h <;> subst h <;> decide
    have hurl : taskUpdateURL (Atoi (r.formValue (str "task_id"))).1
        (r.formValue (str "action")) =
        str "http://localhost:8080/api/tasks/" ++
          Itoa (Atoi (r.formValue (str "task_id"))).1 ++ (str "/" ++ verb) := by
      unfold taskUpdateURL
      rcases hverb with h | h
      · subst h
        rw [if_pos haction, hstart]
      · subst h
        have hne : r.formValue (str "action") ≠ str "start" := by
          rw [haction]; decide
        rw [if_neg hne, if_pos haction, hstop]
    have hreq1 : req = BackendRequest.mk (str "POST")
        (str "http://localhost:8080/api/tasks/" ++
          Itoa (Atoi (r.formValue (str "task_id"))).1 ++ (str "/" ++ verb)) none := by
      rw [hreq, hlit, List.append_assoc]
    have hpre : str "http://" <+: req.url := by
      rw [hreq1]
      show str "http://" <+: str "http://localhost:8080/api/tasks/" ++ _ ++ _
      rw [List.append_assoc]
      exact literal_http _ _ (by decide)
    have hrun := taskUpdateHandler_run env r hm (str "/" ++ verb) hsuf hurl req hreq1
    refine ⟨by rw [hurl, hreq1], by rw [hrun], by rw [hrun]; exact Do_head env req hpre, ?_, ?_⟩
    · intro statusCode location respBody hdo
      rw [hrun]
      simp only [hdo]
    · intro hdo
      rw [hrun]
      simp only [hdo]

theorem taskUpdate_action_url_witness :
    taskUpdateHandler (sampleEnv (answering 200))
        (formRequest [(str "task_id", str "3"), (str "action", str "pause")] false) =
      ⟨[], Outcome.error (str "Failed to update task") 500⟩ ∧
    (taskUpdateHandler (sampleEnv (answering 200))
        (formRequest [(str "task_id", str "3"), (str "action", str "start")] false)).calls.head? =
      some (BackendRequest.mk (str "POST")
        (str "http://localhost:8080/api" ++ str "/tasks/" ++
          Itoa (Atoi ((formRequest [(str "task_id", str "3"), (str "action", str "start")]
            false).formValue (str "task_id"))).1 ++ str "/" ++ str "start") none) :=
  ⟨((taskUpdate_action_url (sampleEnv (answering 200))
      (formRequest [(str "task_id", str "3"), (str "action", str "pause")] false)
      (by decide)).1 (by decide) (by decide)).2,
    ((taskUpdate_action_url (sampleEnv (answering 200))
      (formRequest [(str "task_id", str "3"), (str "action", str "start")] false)
      (by decide)).2 (str "start") (Or.inl rfl) (by decide) _ rfl).2.2.1⟩

/-- C7 (amended): the task delete handler sends a `DELETE` for the rendering
of the parsed `task_id` first, and its run is that of `client.Do` on this
request.  Whenever `client.Do` returns a response, whatever its status
code, the handler redirects to `/` with 303; that response is the reply of
the backend to the `DELETE` call unless that reply is a 301, 302, 303, 307
or 308, which the client follows.  When `client.Do` returns an error the
handler answers 500. -/
theorem taskDelete_redirects (env : Env) (r : Request) (hm : r.method = str "POST") :
    ∀ req, req = BackendRequest.mk (str "DELETE")
        (str "http://localhost:8080/api/tasks/" ++ Itoa (Atoi (r.formValue (str "task_id"))).1)
        none →
      (taskDeleteHandler env r).calls = (Do env req).1 ∧
      (taskDeleteHandler env r).calls.head? = some req ∧
      (∀ statusCode location respBody,
        (Do env req).2 = BackendReply.response statusCode location respBody →
        (taskDeleteHandler env r).outcome = Outcome.redirect (str "/") 303) ∧
      (∀ statusCode location respBody,
        env.backend req = BackendReply.response statusCode location respBody →
        (statusCode ≠ 301 ∧ statusCode ≠ 302 ∧ statusCode ≠ 303 ∧ statusCode ≠ 307 ∧
          statusCode ≠ 308) →
        taskDeleteHandler env r = ⟨[req], Outcome.redirect (str "/") 303⟩) ∧
      ((Do env req).2 = BackendReply.failed →
        (taskDeleteHandler env r).outcome =
          Outcome.error (str "Failed to delete task") 500) := by
  intro req hreq
  have hpre : str "http://" <+: req.url := by
    rw [hreq]
    exact literal_http _ _ (by decide)
  have hrun := taskDeleteHandler_run env r hm req hreq
  refine ⟨by rw [hrun], by rw [hrun]; exact Do_head env req hpre, ?_, ?_, ?_⟩
  · intro statusCode location respBody hdo
    rw [hrun]
    simp only [hdo]
  · intro statusCode location respBody hreply hs
    rw [hrun, Do_direct env req statusCode location respBody hpre hreply hs]
  · intro hdo
    rw [hrun]
    simp only [hdo]

theorem taskDelete_redirects_witness :
    taskDeleteHandler (sampleEnv (answering 404))
        (formRequest [(str "task_id", str "17")] false) =
      ⟨[BackendRequest.mk (str "DELETE")
          (str "http://localhost:8080/api/tasks/" ++
            Itoa (Atoi ((formRequest [(str "task_id", str "17")] false).formValue
              (str "task_id"))).1) none],
        Outcome.redirect (str "/") 303⟩ :=
  ((taskDelete_redirects (sampleEnv (answering 404))
    (formRequest [(str "task_id", str "17")] false) (by decide) _ rfl).2.2.2.1
      404 [] (some (str "[]")) (by decide) (by decide))

/-- C7, as stated, fails when the backend answers the `DELETE` call with a
redirect that cannot be followed to an end: here every request is answered
with a 302 to the same location, the client gives up after 10 requests, and
the handler answers 500 instead of redirecting. -/
theorem taskDelete_redirect_loop :
    looping (str "http://localhost:8080/api/tasks/17")
        (BackendRequest.mk (str "DELETE") (str "http://localhost:8080/api/tasks/17") none) =
      BackendReply.response 302 (str "http://localhost:8080/api/tasks/17") (some []) ∧
    (taskDeleteHandler (sampleEnv (looping (str "http://localhost:8080/api/tasks/17")))
        (formRequest [(str "task_id", str "17")] false)).outcome =
      Outcome.error (str "Failed to delete task") 500 ∧
    (taskDeleteHandler (sampleEnv (looping (str "http://localhost:8080/api/tasks/17")))
        (formRequest [(str "task_id", str "17")] false)).calls =
      BackendRequest.mk (str "DELETE") (str "http://localhost:8080/api/tasks/17") none ::
        List.replicate 9
          (BackendRequest.mk (str "GET") (str "http://localhost:8080/api/tasks/17") none) := by
  decide

/-- C8: in the user create handler a `passport` form value of fewer than 5
bytes makes one of the two slice expressions go out of bounds, so the
handler panics before any backend call and without redirecting. -/
theorem userCreate_short_passport_panics (env : Env) (r : Request)
    (hm : r.method = str "POST") (hlen : (r.formValue (str "passport")).length < 5) :
    (sliceTo (r.formValue (str "passport")) 4 = none ∨
      sliceFrom (r.formValue (str "passport")) 5 = none) ∧
    userCreateHandler env r = ⟨[], Outcome.panic⟩ := by
  have h5 : ¬ 5 ≤ (r.formValue (str "passport")).length := by omega
  constructor
  · right
    unfold sliceFrom
    rw [if_neg h5]
  · unfold userCreateHandler
    simp only [hm, if_true, sliceTo, sliceFrom, h5, if_false]
    split <;> rfl

theorem userCreate_short_passport_panics_witness :
    userCreateHandler (sampleEnv (answering 201))
        (formRequest [(str "name", str "Ann"), (str "passport", str "AB12")] false) =
      ⟨[], Outcome.panic⟩ :=
  (userCreate_short_passport_panics (sampleEnv (answering 201))
    (formRequest [(str "name", str "Ann"), (str "passport", str "AB12")] false)
    (by decide) (by decide)).2

/-- C9 (amended): in the user update handler a `user_id` form value on which
`Atoi` fails leads to no backend call, and to HTTP 400 when the form parses
(HTTP 500 when `ParseForm` fails).  Once the form parses, the id is an
integer and the passport has at least 6 bytes, the handler sends its `PUT`
and its run is that of `client.Do`; when `client.Do` returns a response,
which is the reply of the backend to the `PUT` unless that reply is a 301,
302, 303, 307 or 308, then with its status code `s`: the handler redirects
to `/users` with 303 if and only if `s` is 200, and otherwise calls
`http.Error` with `s`, which answers with the status `s` when `s` is 101 or
between 201 and 999, and panics when `s` is below 100. -/
theorem userUpdate_id_and_status (env : Env) (r : Request) (hm : r.method = str "POST") :
    ((Atoi (r.formValue (str "user_id"))).2 ≠ none →
      (userUpdateHandler env r).calls = [] ∧
      (r.parseFormFails = false →
        userUpdateHandler env r = ⟨[], Outcome.error (str "Invalid user ID") 400⟩) ∧
      (r.parseFormFails = true →
        userUpdateHandler env r = ⟨[], Outcome.error (str "Failed to parse form") 500⟩)) ∧
    (∀ userID, r.parseFormFails = false →
      Atoi (r.formValue (str "user_id")) = (userID, none) →
      6 ≤ (r.formValue (str "new_passport")).length →
      ∀ req, req = BackendRequest.mk (str "PUT")
          (str "http://localhost:8080/api/users/" ++ Itoa userID)
          (some (Payload.user (jsonString (r.formValue (str "user_name")))
            (jsonString ((r.formValue (str "new_passport")).take 4 ++ str " " ++
              (r.formValue (str "new_passport")).drop 5)))) →
        (userUpdateHandler env r).calls = (Do env req).1 ∧
        (userUpdateHandler env r).calls.head? = some req ∧
        (∀ statusCode location respBody,
          (Do env req).2 = BackendReply.response statusCode location respBody →
          ((userUpdateHandler env r).outcome = Outcome.redirect (str "/users") 303 ↔
            statusCode = 200) ∧
          (statusCode ≠ 200 →
            (userUpdateHandler env r).outcome =
              httpError (str "Failed to update user") statusCode ∧
            ((statusCode = 101 ∨ 200 ≤ statusCode) → statusCode ≤ 999 →
              (userUpdateHandler env r).outcome =
                Outcome.error (str "Failed to update user") statusCode) ∧
            (statusCode < 100 → (userUpdateHandler env r).outcome = Outcome.panic))) ∧
        (∀ statusCode location respBody,
          env.backend req = BackendReply.response statusCode location respBody →
          (statusCode ≠ 301 ∧ statusCode ≠ 302 ∧ statusCode ≠ 303 ∧ statusCode ≠ 307 ∧
            statusCode ≠ 308) →
          Do env req = ([req], BackendReply.response statusCode location respBody))) := by
  refine ⟨?_, ?_⟩
  · intro herr
    cases hform : r.parseFormFails with
    | true =>
      have hrun : userUpdateHandler env r =
          ⟨[], Outcome.error (str "Failed to parse form") 500⟩ := by
        simp [userUpdateHandler, hm, hform]
      exact ⟨by rw [hrun], fun h => by simp at h, fun _ => hrun⟩
    | false =>
      rcases hid : Atoi (r.formValue (str "user_id")) with ⟨userID, err⟩
      rw [hid] at herr
      cases err with
      | none => exact absurd rfl herr
      | some e =>
        have hrun : userUpdateHandler env r =
            ⟨[], Outcome.error (str "Invalid user ID") 400⟩ := by
          simp [userUpdateHandler, hm, hform, hid]
        exact ⟨by rw [hrun], fun _ => hrun, fun h => by simp at h⟩
  · intro userID hform hid h6 req hreq
    have hpre : str "http://" <+: req.url := by
      rw [hreq]
      exact literal_http _ _ (by decide)
    have hrun := userUpdateHandler_long env r userID hm hform hid h6 req hreq
    refine ⟨by rw [hrun], by rw [hrun]; exact Do_head env req hpre, ?_, ?_⟩
    · intro statusCode location respBody hdo
      rw [hrun]
      simp only [hdo]
      by_cases hs : statusCode = 200
      · subst hs
        simp
      · have hout : (if statusCode ≠ 200 then
            httpError (str "Failed to update user") statusCode
            else Outcome.redirect (str "/users") 303) =
            httpError (str "Failed to update user") statusCode := by
          rw [if_pos hs]
        rw [hout]
        refine ⟨⟨fun h => absurd h (httpError_ne_redirect _ _ _ _), fun h => absurd h hs⟩,
          fun _ => ⟨rfl, fun h1 h2 => httpError_status _ _ h1 h2,
            fun h => httpError_low _ _ h⟩⟩
    · intro statusCode location respBody hreply hs
      exact Do_direct env req statusCode location respBody hpre hreply hs

theorem userUpdate_id_and_status_witness :
    userUpdateHandler (sampleEnv (answering 200))
        (formRequest [(str "user_id", str "abc"), (str "new_passport", str "AB12 345678")]
          false) =
      ⟨[], Outcome.error (str "Invalid user ID") 400⟩ ∧
    (userUpdateHandler (sampleEnv (answering 404))
        (formRequest [(str "user_id", str "7"), (str "new_passport", str "AB12 345678")]
          false)).outcome =
      Outcome.error (str "Failed to update user") 404 :=
  ⟨(((userUpdate_id_and_status (sampleEnv (answering 200))
      (formRequest [(str "user_id", str "abc"), (str "new_passport", str "AB12 345678")] false)
      (by decide)).1 (by decide)).2.1) (by decide),
    (((((userUpdate_id_and_status (sampleEnv (answering 404))
      (formRequest [(str "user_id", str "7"), (str "new_passport", str "AB12 345678")] false)
      (by decide)).2 7 (by decide) (by decide) (by decide) _ rfl).2.2.1
        404 [] (some (str "[]")) (by decide)).2 (by decide)).2.1) (by decide) (by decide)⟩

/-- C9, as stated, fails in two ways.  When `r.ParseForm()` returns an
error, the `user_id` form value `abc` is not an integer and yet the response
is HTTP 500 (`Failed to parse form`), not 400.  And when the id and the
passport are valid and the backend answers the `PUT` with the status 099,
`http.Error` panics on that code, so that the handler neither redirects nor
responds with the status of the backend. -/
theorem userUpdate_bad_id_parse_failure :
    (Atoi ((formRequest [(str "user_id", str "abc"), (str "new_passport", str "AB12 345678")]
      true).formValue (str "user_id"))).2 = some NumError.ErrSyntax ∧
    userUpdateHandler (sampleEnv (answering 200))
        (formRequest [(str "user_id", str "abc"), (str "new_passport", str "AB12 345678")]
          true) =
      ⟨[], Outcome.error (str "Failed to parse form") 500⟩ ∧
    userUpdateHandler (sampleEnv (answering 99))
        (formRequest [(str "user_id", str "7"), (str "new_passport", str "AB12 345678")]
          false) =
      ⟨[BackendRequest.mk (str "PUT") (str "http://localhost:8080/api/users/7")
          (some (Payload.user [] (str "AB12 345678")))],
        Outcome.panic⟩ := by
  decide

/-- C10 (amended): for every passport `p` of at least 5 bytes the Go string
`series + " " + number` has the length of `p`, agrees with `p` at every byte
except possibly byte 4, has a space at byte 4, equals `p` if and only if
byte 4 of `p` is a space, and splitting it again and recomposing gives it
back.  The `passportNumber` that reaches the backend is this string as
`json.Marshal` encodes it: it is this very string, with all these
properties, whenever the string is valid UTF-8, as it is for every ASCII
passport.  This holds for the request of the user create handler for every
such passport, and for the request of the user update handler whenever it
sends one (which it does for passports of at least 6 bytes). -/
theorem passportNumber_normalised :
    (∀ p : GoString, 5 ≤ p.length →
      NormalisedPassport p (p.take 4 ++ str " " ++ p.drop 5)) ∧
    (∀ p : GoString, ValidString (p.take 4 ++ str " " ++ p.drop 5) = true →
      jsonString (p.take 4 ++ str " " ++ p.drop 5) = p.take 4 ++ str " " ++ p.drop 5) ∧
    (∀ p : GoString, (∀ b ∈ p, b.toNat < 128) →
      ValidString (p.take 4 ++ str " " ++ p.drop 5) = true) ∧
    (∀ env r, r.method = str "POST" → 5 ≤ (r.formValue (str "passport")).length →
      (userCreateHandler env r).calls.head? =
          some (BackendRequest.mk (str "POST") (str "http://localhost:8080/api/users")
            (some (Payload.user (jsonString (r.formValue (str "name")))
              (jsonString ((r.formValue (str "passport")).take 4 ++ str " " ++
                (r.formValue (str "passport")).drop 5))))) ∧
      (ValidString ((r.formValue (str "passport")).take 4 ++ str " " ++
          (r.formValue (str "passport")).drop 5) = true →
        ∃ v, (userCreateHandler env r).calls.head? =
            some (BackendRequest.mk (str "POST") (str "http://localhost:8080/api/users")
              (some (Payload.user (jsonString (r.formValue (str "name"))) v))) ∧
          NormalisedPassport (r.formValue (str "passport")) v)) ∧
    (∀ env r, (userUpdateHandler env r).calls ≠ [] →
      (userUpdateHandler env r).calls.head? =
          some (BackendRequest.mk (str "PUT")
            (str "http://localhost:8080/api/users/" ++
              Itoa (Atoi (r.formValue (str "user_id"))).1)
            (some (Payload.user (jsonString (r.formValue (str "user_name")))
              (jsonString ((r.formValue (str "new_passport")).take 4 ++ str " " ++
                (r.formValue (str "new_passport")).drop 5))))) ∧
      (ValidString ((r.formValue (str "new_passport")).take 4 ++ str " " ++
          (r.formValue (str "new_passport")).drop 5) = true →
        ∃ v, (userUpdateHandler env r).calls.head? =
            some (BackendRequest.mk (str "PUT")
              (str "http://localhost:8080/api/users/" ++
                Itoa (Atoi (r.formValue (str "user_id"))).1)
              (some (Payload.user (jsonString (r.formValue (str "user_name"))) v))) ∧
          NormalisedPassport (r.formValue (str "new_passport")) v)) ∧
    (∀ env r userID, r.method = str "POST" → r.parseFormFails = false →
      Atoi (r.formValue (str "user_id")) = (userID, none) →
      6 ≤ (r.formValue (str "new_passport")).length →
      (userUpdateHandler env r).calls ≠ []) := by
  refine ⟨fun p hp => compose_normalised p hp, fun p hv => jsonString_valid _ hv,
    fun p hp => ValidString_ascii _ (compose_ascii p hp), ?_, ?_, ?_⟩
  · intro env r hm hlen
    have hhead : (userCreateHandler env r).calls.head? =
        some (BackendRequest.mk (str "POST") (str "http://localhost:8080/api/users")
          (some (Payload.user (jsonString (r.formValue (str "name")))
            (jsonString ((r.formValue (str "passport")).take 4 ++ str " " ++
              (r.formValue (str "passport")).drop 5))))) := by
      rw [userCreateHandler_long env r hm hlen _ rfl]
      exact Do_head env _
        (show str "http://" <+: str "http://localhost:8080/api/users" from by decide)
    refine ⟨hhead, fun hv => ⟨_, ?_, compose_normalised _ hlen⟩⟩
    rw [hhead, jsonString_valid _ hv]
  · intro env r hcalls
    obtain ⟨hm, h6, hform, hid⟩ := userUpdateHandler_calls env r hcalls
    have hid1 : Atoi (r.formValue (str "user_id")) =
        ((Atoi (r.formValue (str "user_id"))).1, none) := by
      rw [← hid]
    have hhead : (userUpdateHandler env r).calls.head? =
        some (BackendRequest.mk (str "PUT")
          (str "http://localhost:8080/api/users/" ++
            Itoa (Atoi (r.formValue (str "user_id"))).1)
          (some (Payload.user (jsonString (r.formValue (str "user_name")))
            (jsonString ((r.formValue (str "new_passport")).take 4 ++ str " " ++
              (r.formValue (str "new_passport")).drop 5))))) := by
      rw [userUpdateHandler_long env r _ hm hform hid1 h6 _ rfl]
      exact Do_head env _ (literal_http _ _ (by decide))
    refine ⟨hhead, fun hv => ⟨_, ?_, compose_normalised _ (by omega)⟩⟩
    rw [hhead, jsonString_valid _ hv]
  · intro env r userID hm hform hid h6 hnil
    have hhead := Do_head env (BackendRequest.mk (str "PUT")
      (str "http://localhost:8080/api/users/" ++ Itoa userID)
      (some (Payload.user (jsonString (r.formValue (str "user_name")))
        (jsonString ((r.formValue (str "new_passport")).take 4 ++ str " " ++
          (r.formValue (str "new_passport")).drop 5))))) (literal_http _ _ (by decide))
    rw [userUpdateHandler_long env r userID hm hform hid h6 _ rfl] at hnil
    simp only at hnil
    rw [hnil] at hhead
    simp at hhead

theorem passportNumber_normalised_witness :
    NormalisedPassport (str "AB1234567")
      ((str "AB1234567").take 4 ++ str " " ++ (str "AB1234567").drop 5) ∧
    jsonString ((str "AB1234567").take 4 ++ str " " ++ (str "AB1234567").drop 5) =
      (str "AB1234567").take 4 ++ str " " ++ (str "AB1234567").drop 5 :=
  ⟨passportNumber_normalised.1 (str "AB1234567") (by decide),
    passportNumber_normalised.2.1 (str "AB1234567")
      (passportNumber_normalised.2.2.1 (str "AB1234567") (by decide))⟩

/-- C10, as stated, fails when the cut goes through a multi-byte character:
for the 9-byte passport `ABC\xc3\x805678` the string `series + " " + number`
is `ABC\xc3 5678`, whose byte `C3` is no valid UTF-8, and `json.Marshal`
sends U+FFFD in its place, so that the `passportNumber` the backend
receives has 11 bytes, not 9, and differs from the passport at bytes other
than byte 4. -/
theorem passportNumber_split_character :
    ([65, 66, 67, 195, 128, 53, 54, 55, 56] : GoString).length = 9 ∧
    (userCreateHandler (sampleEnv (answering 201))
        (formRequest [(str "name", str "Ann"),
          (str "passport", [65, 66, 67, 195, 128, 53, 54, 55, 56])] false)).calls =
      [BackendRequest.mk (str "POST") (str "http://localhost:8080/api/users")
        (some (Payload.user (str "Ann")
          [65, 66, 67, 239, 191, 189, 32, 53, 54, 55, 56]))] ∧
    ([65, 66, 67, 239, 191, 189, 32, 53, 54, 55, 56] : GoString).length = 11 ∧
    ¬ NormalisedPassport [65, 66, 67, 195, 128, 53, 54, 55, 56]
        [65, 66, 67, 239, 191, 189, 32, 53, 54, 55, 56] := by
  refine ⟨by decide, by decide, by decide, ?_⟩
  intro h
  have hlen := h.1
  revert hlen
  decide

end TaskManager
